import Mathlib

/-!
Shallow embedding of the `harvia_fenix` cloud client
(`custom_components/harvia_fenix/api.py` and `coordinator.py`).

JSON values are modelled by `JVal` with integer-valued numbers; Python's
`None` and JSON `null` are both `JVal.null`.  Python exceptions become an
explicit error type `ApiErr`; HTTP traffic is a list of pending responses
consumed in order, and every issued request is recorded in a trace so that
"no network call was made" is a statement about that trace.
-/

namespace HarviaFenix

/-- JSON / Python value model (numbers are integer-valued). -/
inductive JVal where
  | null
  | bool (b : Bool)
  | num (n : Int)
  | str (s : String)
  | arr (xs : List JVal)
  | obj (kvs : List (String × JVal))
deriving Repr

mutual
/-- Boolean equality on `JVal` (structural). -/
def jBeq : JVal → JVal → Bool
  | .null, .null => true
  | .bool a, .bool b => a == b
  | .num a, .num b => a == b
  | .str a, .str b => a == b
  | .arr a, .arr b => jBeqList a b
  | .obj a, .obj b => jBeqObj a b
  | _, _ => false

def jBeqList : List JVal → List JVal → Bool
  | [], [] => true
  | a :: as, b :: bs => jBeq a b && jBeqList as bs
  | _, _ => false

def jBeqObj : List (String × JVal) → List (String × JVal) → Bool
  | [], [] => true
  | (ka, va) :: as, (kb, vb) :: bs => ka == kb && jBeq va vb && jBeqObj as bs
  | _, _ => false
end

mutual
theorem jBeq_eq : ∀ a b, jBeq a b = true → a = b
  | .null, .null, _ => rfl
  | .bool _, .bool _, h => by simpa [jBeq] using congrArg JVal.bool (by simpa [jBeq] using h)
  | .num _, .num _, h => congrArg JVal.num (by simpa [jBeq] using h)
  | .str _, .str _, h => congrArg JVal.str (by simpa [jBeq] using h)
  | .arr _, .arr _, h => congrArg JVal.arr (jBeqList_eq _ _ (by simpa [jBeq] using h))
  | .obj _, .obj _, h => congrArg JVal.obj (jBeqObj_eq _ _ (by simpa [jBeq] using h))

theorem jBeqList_eq : ∀ a b, jBeqList a b = true → a = b
  | [], [], _ => rfl
  | a :: as, b :: bs, h => by
      have h' := h
      simp only [jBeqList, Bool.and_eq_true] at h'
      exact congrArg₂ List.cons (jBeq_eq a b h'.1) (jBeqList_eq as bs h'.2)

theorem jBeqObj_eq : ∀ a b, jBeqObj a b = true → a = b
  | [], [], _ => rfl
  | (ka, va) :: as, (kb, vb) :: bs, h => by
      have h' := h
      simp only [jBeqObj, Bool.and_eq_true, beq_iff_eq] at h'
      have hk : ka = kb := h'.1.1
      have hv : va = vb := jBeq_eq va vb h'.1.2
      have ht : as = bs := jBeqObj_eq as bs h'.2
      rw [hk, hv, ht]
end

mutual
theorem jBeq_refl : ∀ a, jBeq a a = true
  | .null => rfl
  | .bool b => by simp [jBeq]
  | .num _ => by simp [jBeq]
  | .str _ => by simp [jBeq]
  | .arr xs => by simpa [jBeq] using jBeqList_refl xs
  | .obj kvs => by simpa [jBeq] using jBeqObj_refl kvs

theorem jBeqList_refl : ∀ a, jBeqList a a = true
  | [] => rfl
  | a :: as => by simp [jBeqList, jBeq_refl a, jBeqList_refl as]

theorem jBeqObj_refl : ∀ a, jBeqObj a a = true
  | [] => rfl
  | (k, v) :: as => by simp [jBeqObj, jBeq_refl v, jBeqObj_refl as]
end

instance : DecidableEq JVal := fun a b =>
  if h : jBeq a b = true then .isTrue (jBeq_eq a b h)
  else .isFalse (fun he => h (he ▸ jBeq_refl a))

/-- Python truthiness of a value (`bool(x)`). -/
def truthy : JVal → Bool
  | .null => false
  | .bool b => b
  | .num n => n != 0
  | .str s => s != ""
  | .arr xs => !xs.isEmpty
  | .obj kvs => !kvs.isEmpty

/-- Python `a or b`: `a` when truthy, else `b`. -/
def pyOr (a b : JVal) : JVal := if truthy a then a else b

/-- Association-list lookup on an object body; an absent key yields
`JVal.null`, matching Python `dict.get` returning `None`. -/
def jLookup : List (String × JVal) → String → JVal
  | [], _ => .null
  | (k, v) :: rest, key => if k == key then v else jLookup rest key

/-- Nonempty all-digit character list to a number. -/
def digitsToNat : List Char → Option Nat
  | [] => none
  | ds =>
    if ds.all Char.isDigit then some (ds.foldl (fun a c => a * 10 + (c.toNat - 48)) 0)
    else none

/-- Parse a Python integer literal: surrounding whitespace stripped,
optional sign, decimal digits. -/
def pyParseIntStr (s : String) : Option Int :=
  match (s.toList.dropWhile Char.isWhitespace).reverse.dropWhile Char.isWhitespace
      |>.reverse with
  | '-' :: ds => (digitsToNat ds).map (fun n => -(n : Int))
  | '+' :: ds => (digitsToNat ds).map (fun n => (n : Int))
  | ds => (digitsToNat ds).map (fun n => (n : Int))

/-- Python `int(x)` coercion (`None`/containers raise, i.e. `none`;
strings are parsed as optionally signed decimal integers after trimming). -/
def pyToInt : JVal → Option Int
  | .null => none
  | .bool b => some (if b then 1 else 0)
  | .num n => some n
  | .str s => pyParseIntStr s
  | .arr _ => none
  | .obj _ => none

/-- Python `float(x)` coercion, restricted to this model's integer-valued
numbers (string parses that are not integers fail here). -/
def pyToFloat : JVal → Option Int
  | .null => none
  | .bool b => some (if b then 1 else 0)
  | .num n => some n
  | .str s => pyParseIntStr s
  | .arr _ => none
  | .obj _ => none

mutual
/-- Python `str(x)` for JSON-derived values. -/
def pyStr : JVal → String
  | .null => "None"
  | .bool b => if b then "True" else "False"
  | .num n => toString n
  | .str s => s
  | .arr xs => "[" ++ pyReprList xs ++ "]"
  | .obj kvs => "\x7b" ++ pyReprObj kvs ++ "\x7d"

/-- Python `repr(x)` for JSON-derived values (quote choice only, no escapes). -/
def pyRepr : JVal → String
  | .null => "None"
  | .bool b => if b then "True" else "False"
  | .num n => toString n
  | .str s => if s.contains '\x27' then "\x22" ++ s ++ "\x22" else "\x27" ++ s ++ "\x27"
  | .arr xs => "[" ++ pyReprList xs ++ "]"
  | .obj kvs => "\x7b" ++ pyReprObj kvs ++ "\x7d"

def pyReprList : List JVal → String
  | [] => ""
  | [x] => pyRepr x
  | x :: xs => pyRepr x ++ ", " ++ pyReprList xs

def pyReprObj : List (String × JVal) → String
  | [] => ""
  | [(k, v)] => pyRepr (.str k) ++ ": " ++ pyRepr v
  | (k, v) :: kvs => pyRepr (.str k) ++ ": " ++ pyRepr v ++ ", " ++ pyReprObj kvs
end

/-- `s.rstrip("/")`. -/
def rstripSlash (s : String) : String :=
  String.mk ((s.toList.reverse.dropWhile (· = '/')).reverse)

/-- `s.lstrip("/")`. -/
def lstripSlash (s : String) : String :=
  String.mk (s.toList.dropWhile (· = '/'))

/-- Assoc-list find (`some` iff the key is present). -/
def jFind {α : Type} : List (String × α) → String → Option α
  | [], _ => none
  | (k, v) :: rest, key => if k == key then some v else jFind rest key

/-- Body of an HTTP response as seen by `await resp.text()`: empty, a
parseable JSON document, or text that `json.loads` rejects. -/
inductive Body where
  | empty
  | json (v : JVal)
  | invalid
deriving Repr, DecidableEq

/-- One HTTP response handed to the client. -/
structure HResp where
  status : Nat
  text : Body
deriving Repr, DecidableEq

/-- Python exceptions raised by the client, by raise site. -/
inductive ApiErr where
  /-- `HarviaAuthError`. -/
  | auth (msg : String)
  /-- `RuntimeError` with a plain message (configuration failures). -/
  | runtime (msg : String)
  /-- `RuntimeError` formatted with an HTTP status and the response text. -/
  | httpFail (status : Nat) (text : Body)
  /-- `json.JSONDecodeError` from `json.loads`. -/
  | jsonDecode
  /-- `AttributeError` from calling `.get` on a non-dict. -/
  | attrError
  /-- Transport failure: no response available for an issued request. -/
  | transport
deriving Repr, DecidableEq

/-- `json.loads(text) if text else {}`. -/
def jsonLoadsOrEmpty : Body → Except ApiErr JVal
  | .empty => .ok (.obj [])
  | .json v => .ok v
  | .invalid => .error .jsonDecode

/-- `x.get(k)`: `None` when the key is absent; `AttributeError` on a non-dict. -/
def pyGet (v : JVal) (k : String) : Except ApiErr JVal :=
  match v with
  | .obj kvs => .ok (jLookup kvs k)
  | _ => .error .attrError

/-- `data.get(k1) or data.get(k2)` with Python short-circuiting. -/
def pyGetOr2 (data : JVal) (k1 k2 : String) : Except ApiErr JVal := do
  let a ← pyGet data k1
  if truthy a then pure a else pyGet data k2

/-- `x[k]` indexing: `none` models both `KeyError` (absent key) and
`TypeError` (non-dict receiver), which the caller's `except` collapses. -/
def dictIndex (v : JVal) (k : String) : Option JVal :=
  match v with
  | .obj kvs => jFind kvs k
  | _ => none

/-- `x.get(k, d)`: `none` models `AttributeError` on a non-dict receiver. -/
def pyGetDefault (v : JVal) (k : String) (d : JVal) : Option JVal :=
  match v with
  | .obj kvs => some ((jFind kvs k).getD d)
  | _ => none

/-- `HarviaTokens` dataclass. `expires_at` is epoch seconds (integer time
in this model). -/
structure HarviaTokens where
  id_token : Option JVal := none
  access_token : Option JVal := none
  refresh_token : Option JVal := none
  expires_at : Option Int := none
deriving Repr, DecidableEq

/-- Truthiness of an optional Python value (`None` is falsy). -/
def optTruthy : Option JVal → Bool
  | none => false
  | some v => truthy v

/-- Truthiness of an optional string field. -/
def optStrTruthy : Option String → Bool
  | none => false
  | some s => s != ""

/-- `self._expiry_skew` (refresh 60 s before expiry). -/
def expirySkew : Int := 60

/-- Mutable client state of `HarviaSaunaAPI` (session handling elided). -/
structure Client where
  username : String
  password : String
  tokens : HarviaTokens
  endpoints_loaded : Bool
  rest_generics_base : Option String
  rest_device_base : Option String
  rest_data_base : Option String
deriving Repr, DecidableEq

/-- HTTP requests the client can issue, recorded in a trace. -/
inductive Req where
  | endpoints
  | authToken
  | authRefresh
  | rest (method : String) (url : String)
deriving Repr, DecidableEq

/-- Outcome of one (possibly multi-request) client operation: the result or
the raised exception, the updated client, the unconsumed responses, and the
trace of issued requests. -/
structure Step (α : Type) where
  result : Except ApiErr α
  client : Client
  pending : List HResp
  trace : List Req
deriving Repr

/-- Sequencing of client operations: on success continue from the updated
state, accumulating the request trace; an exception short-circuits. -/
def Step.andThen (s : Step α) (f : α → Client → List HResp → Step β) : Step β :=
  match s.result with
  | .error e => ⟨.error e, s.client, s.pending, s.trace⟩
  | .ok a =>
    let t := f a s.client s.pending
    ⟨t.result, t.client, t.pending, s.trace ++ t.trace⟩

/-- `HarviaSaunaAPI._apply_token_payload`. -/
def apply_token_payload (tks : HarviaTokens) (data : JVal) (keepRefreshIfMissing : Bool)
    (now : Int) : Except ApiErr HarviaTokens := do
  let id_token ← pyGetOr2 data "idToken" "id_token"
  let access_token ← pyGetOr2 data "accessToken" "access_token"
  let refresh_token ← pyGetOr2 data "refreshToken" "refresh_token"
  let expires_in ← pyGetOr2 data "expiresIn" "expires_in"
  let tks := if truthy id_token then { tks with id_token := some id_token } else tks
  let tks := if truthy access_token then { tks with access_token := some access_token } else tks
  let tks :=
    if truthy refresh_token then { tks with refresh_token := some refresh_token }
    else if !keepRefreshIfMissing then { tks with refresh_token := none }
    else tks
  let tks :=
    if expires_in = JVal.null then tks
    else
      match pyToFloat expires_in with
      | some f => { tks with expires_at := some (now + f) }
      | none => { tks with expires_at := none }
  pure tks

/-- `HarviaSaunaAPI._token_needs_refresh` (`now` is `time.time()`). -/
def token_needs_refresh (tks : HarviaTokens) (now : Int) : Bool :=
  if !(optTruthy tks.id_token) then true
  else
    match tks.expires_at with
    | none => false
    | some e => if e = 0 then false else decide (e - expirySkew ≤ now)

/-- `HarviaSaunaAPI._authenticate`. -/
def authenticate (c : Client) (w : List HResp) (now : Int) : Step Unit :=
  match c.rest_generics_base with
  | none => ⟨.error (.runtime "assert generics base"), c, w, []⟩
  | some _ =>
    match w with
    | [] => ⟨.error .transport, c, [], [.authToken]⟩
    | resp :: rest =>
      if resp.status = 401 ∨ resp.status = 403 then
        ⟨.error (.auth "Auth rejected"), c, rest, [.authToken]⟩
      else if 400 ≤ resp.status then
        ⟨.error (.httpFail resp.status resp.text), c, rest, [.authToken]⟩
      else
        match jsonLoadsOrEmpty resp.text with
        | .error e => ⟨.error e, c, rest, [.authToken]⟩
        | .ok data =>
          match apply_token_payload c.tokens data false now with
          | .error e => ⟨.error e, c, rest, [.authToken]⟩
          | .ok tks => ⟨.ok (), { c with tokens := tks }, rest, [.authToken]⟩

/-- `HarviaSaunaAPI._refresh`. -/
def refreshCall (c : Client) (w : List HResp) (now : Int) : Step Bool :=
  match c.rest_generics_base with
  | none => ⟨.error (.runtime "assert generics base"), c, w, []⟩
  | some _ =>
    if !(optTruthy c.tokens.refresh_token) then ⟨.ok false, c, w, []⟩
    else
      match w with
      | [] => ⟨.error .transport, c, [], [.authRefresh]⟩
      | resp :: rest =>
        if resp.status = 401 ∨ resp.status = 403 then
          ⟨.ok false, c, rest, [.authRefresh]⟩
        else if 400 ≤ resp.status then
          ⟨.ok false, c, rest, [.authRefresh]⟩
        else
          match jsonLoadsOrEmpty resp.text with
          | .error e => ⟨.error e, c, rest, [.authRefresh]⟩
          | .ok data =>
            match apply_token_payload c.tokens data true now with
            | .error e => ⟨.error e, c, rest, [.authRefresh]⟩
            | .ok tks =>
              ⟨.ok (optTruthy tks.id_token), { c with tokens := tks }, rest, [.authRefresh]⟩

/-- The `try` block of `_load_endpoints`: extract
`endpoints.RestApi.{generics,device}.https` by indexing and the optional
`data` base via `rest_api.get("data", \x7b\x7d).get("https")`; any
`KeyError`/`TypeError`/`AttributeError` makes the whole block fail. -/
def parseEndpointBases (data : JVal) : Option (JVal × JVal × JVal) := do
  let eps ← dictIndex data "endpoints"
  let restApi ← dictIndex eps "RestApi"
  let g ← dictIndex (← dictIndex restApi "generics") "https"
  let d ← dictIndex (← dictIndex restApi "device") "https"
  let dataSvc ← pyGetDefault restApi "data" (.obj [])
  let dat ←
    match dataSvc with
    | .obj kvs => some (jLookup kvs "https")
    | _ => none
  pure (g, d, dat)

/-- `HarviaSaunaAPI._load_endpoints`. -/
def load_endpoints (c : Client) (w : List HResp) : Step Unit :=
  match w with
  | [] => ⟨.error .transport, c, [], [.endpoints]⟩
  | resp :: rest =>
    if 400 ≤ resp.status then
      ⟨.error (.httpFail resp.status resp.text), c, rest, [.endpoints]⟩
    else
      match jsonLoadsOrEmpty resp.text with
      | .error e => ⟨.error e, c, rest, [.endpoints]⟩
      | .ok data =>
        match parseEndpointBases data with
        | none => ⟨.error (.runtime "Endpoints parsing failed"), c, rest, [.endpoints]⟩
        | some (g, d, dat) =>
          ⟨.ok (),
            { c with
              rest_generics_base := some (rstripSlash (pyStr g)),
              rest_device_base := some (rstripSlash (pyStr d)),
              rest_data_base := if truthy dat then some (rstripSlash (pyStr dat)) else none,
              endpoints_loaded := true },
            rest, [.endpoints]⟩

/-- `HarviaSaunaAPI.async_init`. -/
def async_init (c : Client) (w : List HResp) (now : Int) : Step Unit :=
  let s1 : Step Unit :=
    if !c.endpoints_loaded then load_endpoints c w else ⟨.ok (), c, w, []⟩
  s1.andThen fun () c w =>
    if !(optStrTruthy c.rest_generics_base) || !(optStrTruthy c.rest_device_base) then
      ⟨.error (.runtime "Harvia endpoints not initialized"), c, w, []⟩
    else
      let s2 : Step Unit :=
        if !(optTruthy c.tokens.id_token) then authenticate c w now else ⟨.ok (), c, w, []⟩
      s2.andThen fun () c w =>
        if !(optTruthy c.tokens.id_token) then
          ⟨.error (.auth "Harvia auth failed: no idToken"), c, w, []⟩
        else ⟨.ok (), c, w, []⟩

/-- `HarviaSaunaAPI._ensure_valid_token`. -/
def ensure_valid_token (c : Client) (w : List HResp) (now : Int) (force : Bool) : Step Unit :=
  (async_init c w now).andThen fun () c w =>
    let s : Step Unit :=
      if force || token_needs_refresh c.tokens now then
        (refreshCall c w now).andThen fun ok c w =>
          if !ok then authenticate c w now else ⟨.ok (), c, w, []⟩
      else ⟨.ok (), c, w, []⟩
    s.andThen fun () c w =>
      if !(optTruthy c.tokens.id_token) then
        ⟨.error (.auth "No valid token after refresh/auth"), c, w, []⟩
      else ⟨.ok (), c, w, []⟩

/-- `HarviaSaunaAPI.rest_call` (the two-attempt loop unrolled; the
post-loop `raise` on line 295 is unreachable). -/
def rest_call (c : Client) (w : List HResp) (now : Int) (base : Option String)
    (method : String) (path : String) : Step JVal :=
  (async_init c w now).andThen fun () c w =>
    if !(optStrTruthy base) then
      ⟨.error (.runtime "Harvia rest_call base URL is missing"), c, w, []⟩
    else
      let url := rstripSlash (base.getD "") ++ "/" ++ lstripSlash path
      (ensure_valid_token c w now false).andThen fun () c w =>
        match w with
        | [] => ⟨.error .transport, c, [], [.rest method url]⟩
        | resp :: rest =>
          if resp.status < 400 then
            ⟨jsonLoadsOrEmpty resp.text, c, rest, [.rest method url]⟩
          else if resp.status = 401 ∨ resp.status = 403 then
            (Step.mk (.ok ()) c rest [.rest method url]).andThen fun () c w =>
              (ensure_valid_token c w now true).andThen fun () c w =>
                match w with
                | [] => ⟨.error .transport, c, [], [.rest method url]⟩
                | resp2 :: rest2 =>
                  if resp2.status < 400 then
                    ⟨jsonLoadsOrEmpty resp2.text, c, rest2, [.rest method url]⟩
                  else if resp2.status = 401 ∨ resp2.status = 403 then
                    ⟨.error (.auth "Unauthorized"), c, rest2, [.rest method url]⟩
                  else
                    ⟨.error (.httpFail resp2.status resp2.text), c, rest2, [.rest method url]⟩
          else
            ⟨.error (.httpFail resp.status resp.text), c, rest, [.rest method url]⟩

/-- `HarviaDevice` dataclass. -/
structure HarviaDevice where
  id : String
  type : String
  name : String
  attr : JVal
  state : Option JVal := none
deriving Repr, DecidableEq

/-- The parsing part of `HarviaSaunaAPI.get_devices` (lines 306-332),
applied to the `/devices` response body. -/
def parse_devices (data : JVal) : List HarviaDevice :=
  let devices_raw :=
    match data with
    | .obj kvs => jLookup kvs "devices"
    | _ => data
  match devices_raw with
  | .arr items =>
    items.filterMap fun item =>
      match item with
      | .obj kvs =>
        let device_id :=
          pyStr (pyOr (jLookup kvs "id")
            (pyOr (jLookup kvs "deviceId") (pyOr (jLookup kvs "name") (.str ""))))
        if device_id = "" then none
        else
          some
            { id := device_id,
              type := pyStr (pyOr (jLookup kvs "type") (.str "")),
              name := pyStr (pyOr (jLookup kvs "name") (.str device_id)),
              attr := pyOr (jLookup kvs "attr") (pyOr (jLookup kvs "attributes") (.arr [])),
              state := none }
      | _ => none
  | _ => []

/-- One entry of the normalized `profiles` map built by `_extract_state`. -/
structure NormProfile where
  name : JVal
  targetTemp : JVal
  targetHum : JVal
  duration : JVal
  heater_on : JVal
  steamer_on : JVal
  light_on : JVal
deriving Repr, DecidableEq

/-- The normalization of one raw profile dict (lines 414-422). -/
def normProfile (pk : List (String × JVal)) : NormProfile :=
  { name := jLookup pk "name",
    targetTemp := jLookup pk "targetTemp",
    targetHum := jLookup pk "targetHum",
    duration := jLookup pk "duration",
    heater_on := match jLookup pk "heater" with | .obj h => jLookup h "on" | _ => .null,
    steamer_on := match jLookup pk "steamer" with | .obj h => jLookup h "on" | _ => .null,
    light_on := match jLookup pk "light" with | .obj h => jLookup h "on" | _ => .null }

/-- The flat record returned by `_extract_state`; `JVal.null` is Python
`None`. -/
structure NormState where
  connected : JVal
  display_name : JVal
  target_temperature : JVal
  humidity_setpoint : JVal
  heater_on_raw : JVal
  heater_state : JVal
  steamer_on_raw : JVal
  steamer_state : JVal
  light_on_raw : JVal
  screen_lock_on : JVal
  setting_max_on_time : JVal
  setting_max_temp : JVal
  setting_temp_calibration : JVal
  setting_blackout_control : JVal
  setting_dehumidification : JVal
  setting_remote_control : JVal
  setting_screen_saver_time : JVal
  setting_lock_settings : JVal
  setting_lock_additional : JVal
  remote_allowed : JVal
  demo_mode : JVal
  active_profile : JVal
  sauna_status : JVal
  profiles : List (String × NormProfile)
deriving Repr, DecidableEq

/-- Lines 388-397 of `_extract_state`: a profile field, `None` unless the
active profile is a dict. -/
def prof_field (apd : JVal) (key : String) : JVal :=
  match apd with
  | .obj pkvs => jLookup pkvs key
  | _ => .null

/-- Lines 398-407 of `_extract_state`: a profile actuator `on` flag,
guarded by the `isinstance` checks. -/
def prof_actuator (apd : JVal) (key : String) : JVal :=
  match apd with
  | .obj pkvs =>
    match pyOr (jLookup pkvs key) (.obj []) with
    | .obj h => jLookup h "on"
    | _ => .null
  | _ => .null

/-- Lines 380-386 of `_extract_state`: `str(int(active_profile))` looked
up in `profiles`; any coercion failure or a non-dict `profiles` yields no
active profile. -/
def active_profile_dict_of (active_profile raw_profiles : JVal) : JVal :=
  match pyToInt active_profile with
  | none => .null
  | some n =>
    match raw_profiles with
    | .obj kvs => jLookup kvs (toString n)
    | _ => .null

/-- A Python conditional expression `x if c else st.get(k)` (lazy: the
`.get` only runs when `c` fails). -/
def pyCondGet (c : Prop) [inst : Decidable c] (x : JVal) (st : JVal) (k : String) :
    Except ApiErr JVal :=
  if c then pure x else pyGet st k

/-- Lines 409-422 of `_extract_state`: normalize every profile dict,
skipping non-dict entries, keyed by the original string index. -/
def norm_profiles_of (raw_profiles : JVal) : List (String × NormProfile) :=
  match raw_profiles with
  | .obj kvs =>
    kvs.filterMap fun kp =>
      match kp.2 with
      | .obj pk => some (kp.1, normProfile pk)
      | _ => none
  | _ => []

/-- `HarviaSaunaAPI._extract_state` on a dict payload, with Python's
evaluation order: `.get` on a truthy non-dict sub-object raises
`AttributeError`; conditional expressions stay lazy. -/
def extract_state (obj : List (String × JVal)) : Except ApiErr NormState := do
  let st := pyOr (jLookup obj "state") (.obj [])
  let conn := pyOr (jLookup obj "connectionState") (.obj [])
  let settings := pyOr (← pyGet st "settings") (.obj [])
  let screen_lock := pyOr (← pyGet st "screenLock") (.obj [])
  let heater := pyOr (← pyGet st "heater") (.obj [])
  let steamer := pyOr (← pyGet st "steamer") (.obj [])
  let light := pyOr (← pyGet st "light") (.obj [])
  let active_profile ← pyGet st "activeProfile"
  let raw_profiles := pyOr (← pyGet st "profiles") (.obj [])
  let active_profile_dict := active_profile_dict_of active_profile raw_profiles
  let profile_target_temp := prof_field active_profile_dict "targetTemp"
  let profile_target_hum := prof_field active_profile_dict "targetHum"
  let profile_heater_on := prof_actuator active_profile_dict "heater"
  let profile_steamer_on := prof_actuator active_profile_dict "steamer"
  let profile_light_on := prof_actuator active_profile_dict "light"
  let norm_profiles := norm_profiles_of raw_profiles
  let connected :=
    match conn with
    | .obj k => jLookup k "connected"
    | _ => JVal.null
  let display_name ← pyGet st "displayName"
  let target_temperature ←
    pyCondGet (profile_target_temp ≠ JVal.null) profile_target_temp st "targetTemp"
  let humidity_setpoint ←
    pyCondGet (profile_target_hum ≠ JVal.null) profile_target_hum st "targetHum"
  let heater_on_raw ←
    pyCondGet (profile_heater_on ≠ JVal.null) profile_heater_on heater "on"
  let heater_state ← pyGet heater "state"
  let steamer_on_raw ←
    pyCondGet (profile_steamer_on ≠ JVal.null) profile_steamer_on steamer "on"
  let steamer_state ← pyGet steamer "state"
  let light_on_raw ←
    pyCondGet (profile_light_on ≠ JVal.null) profile_light_on light "on"
  let screen_lock_on ← pyGet screen_lock "on"
  let setting_max_on_time ← pyGet settings "maxOnTime"
  let setting_max_temp ← pyGet settings "maxTemp"
  let setting_temp_calibration ← pyGet settings "tempCalibration"
  let setting_blackout_control ← pyGet settings "blackoutControl"
  let setting_dehumidification ← pyGet settings "dehumidification"
  let setting_remote_control ← pyGet settings "remoteControl"
  let setting_screen_saver_time ← pyGet settings "screenSaverTime"
  let setting_lock_settings ← pyGet settings "lockSettings"
  let setting_lock_additional ← pyGet settings "lockAdditional"
  let remote_allowed ← pyGet st "remoteAllowed"
  let demo_mode ← pyGet st "demoMode"
  let active_profile_out ← pyGet st "activeProfile"
  let sauna_status ← pyGet st "saunaStatus"
  pure
    { connected := connected,
      display_name := display_name,
      target_temperature := target_temperature,
      humidity_setpoint := humidity_setpoint,
      heater_on_raw := heater_on_raw,
      heater_state := heater_state,
      steamer_on_raw := steamer_on_raw,
      steamer_state := steamer_state,
      light_on_raw := light_on_raw,
      screen_lock_on := screen_lock_on,
      setting_max_on_time := setting_max_on_time,
      setting_max_temp := setting_max_temp,
      setting_temp_calibration := setting_temp_calibration,
      setting_blackout_control := setting_blackout_control,
      setting_dehumidification := setting_dehumidification,
      setting_remote_control := setting_remote_control,
      setting_screen_saver_time := setting_screen_saver_time,
      setting_lock_settings := setting_lock_settings,
      setting_lock_additional := setting_lock_additional,
      remote_allowed := remote_allowed,
      demo_mode := demo_mode,
      active_profile := active_profile_out,
      sauna_status := sauna_status,
      profiles := norm_profiles }

/-- The normalization step of `refresh_device_state` (lines 471-474):
a dict response is normalized, anything else becomes the empty state dict
(modelled as `none`). -/
def refresh_device_state_normalize (raw : JVal) : Except ApiErr (Option NormState) :=
  match raw with
  | .obj kvs => (extract_state kvs).map some
  | _ => .ok none

/-! ## Coordinator (`coordinator.py`)

The coordinator calls a `HarviaFenixApi` whose class body is not part of
the sources; its per-call outcomes are therefore abstracted as an oracle:
each call either returns a payload or raises `HarviaAuthError`,
`HarviaApiError`, or some other exception. -/

/-- A device as the coordinator sees it (`dev.id`, `dev.attrs`). -/
structure CDevice where
  id : String
  attrs : List (String × JVal)
deriving Repr, DecidableEq

/-- Outcome kind of one API call made by the coordinator. -/
inductive FetchErr where
  /-- `HarviaAuthError`. -/
  | auth
  /-- `HarviaApiError` (for example a 403). -/
  | api
  /-- any other exception. -/
  | other
deriving Repr, DecidableEq

/-- The API calls the coordinator issues, as call-outcome oracles. -/
structure FetchOracle where
  getDevices : Except FetchErr (List CDevice)
  state : String → Except FetchErr JVal
  latest : String → Except FetchErr JVal

/-- The candidate id list built by `_try_state_with_fallback` /
`_try_latest_with_fallback`: the device id, then the serial-number
attribute when present and distinct. -/
def tryIdsOf (dev : CDevice) : List String :=
  let try_ids := [dev.id]
  if !dev.attrs.isEmpty then
    let serial := jLookup dev.attrs "serialNumber"
    if truthy serial && !(try_ids.contains (pyStr serial)) then try_ids ++ [pyStr serial]
    else try_ids
  else try_ids

/-- The id loop shared by `_try_state_with_fallback` and
`_try_latest_with_fallback`: first success wins, `HarviaAuthError`
re-raises (modelled as `.error ()`), any other error moves to the next id;
exhaustion yields `None`. -/
def try_with_fallback (fetch : String → Except FetchErr JVal) : List String → Except Unit (Option JVal)
  | [] => .ok none
  | did :: rest =>
    match fetch did with
    | .ok v => .ok (some v)
    | .error .auth => .error ()
    | .error _ => try_with_fallback fetch rest

/-- Coordinator-held maps (`_devices`, `_states`, `_latest`). -/
structure CoordState where
  devices : List (String × CDevice)
  states : List (String × JVal)
  latest : List (String × JVal)
deriving Repr, DecidableEq

/-- How `_async_update_data` terminates abnormally. -/
inductive UpdateErr where
  /-- `ConfigEntryAuthFailed` (fatal re-authentication signal). -/
  | authFailed
  /-- `UpdateFailed` (device list fetch failed non-fatally). -/
  | updateFailed
deriving Repr, DecidableEq

/-- The per-device state/latest loop of `_async_update_data` (lines
128-147): each device contributes its entry only when its fetch succeeded;
an auth error aborts everything. -/
def poll_devices (o : FetchOracle) :
    List CDevice → Except Unit (List (String × JVal) × List (String × JVal))
  | [] => .ok ([], [])
  | d :: rest => do
    let s ← try_with_fallback o.state (tryIdsOf d)
    let l ← try_with_fallback o.latest (tryIdsOf d)
    let (ss, ls) ← poll_devices o rest
    pure ((match s with | some v => [(d.id, v)] | none => []) ++ ss,
          (match l with | some v => [(d.id, v)] | none => []) ++ ls)

/-- `HarviaFenixCoordinator._async_update_data`: the new snapshot is built
from scratch; `prev` is the coordinator state before the cycle. -/
def async_update_data (o : FetchOracle) (_prev : CoordState) : Except UpdateErr CoordState :=
  match o.getDevices with
  | .error .auth => .error .authFailed
  | .error _ => .error .updateFailed
  | .ok devs =>
    let devMap := devs.map fun d => (d.id, d)
    match poll_devices o devs with
    | .error () => .error .authFailed
    | .ok (new_states, new_latest) =>
      .ok { devices := devMap, states := new_states, latest := new_latest }

/-- `isinstance(x, dict)`. -/
def isObj : JVal → Bool
  | .obj _ => true
  | _ => false

/-- A value on which `x or \x7b\x7d` then `.get` is safe: a dict or falsy. -/
def dictOrFalsy (v : JVal) : Bool := isObj v || !truthy v

/-- A device-state payload with dict-shaped sub-objects, used to exercise
`_extract_state` on arbitrary profile data. -/
def samplePayload (ap rt rh : JVal) (P H Sm L : List (String × JVal)) :
    List (String × JVal) :=
  [("state", .obj [("activeProfile", ap), ("profiles", .obj P), ("targetTemp", rt),
    ("targetHum", rh), ("heater", .obj H), ("steamer", .obj Sm), ("light", .obj L)])]

/-- The field-wise effect of `_apply_token_payload` on a dict payload. -/
def apply_token_record (tks : HarviaTokens) (P : List (String × JVal)) (keep : Bool)
    (now : Int) : HarviaTokens :=
  { id_token :=
      if truthy (pyOr (jLookup P "idToken") (jLookup P "id_token")) = true
      then some (pyOr (jLookup P "idToken") (jLookup P "id_token")) else tks.id_token,
    access_token :=
      if truthy (pyOr (jLookup P "accessToken") (jLookup P "access_token")) = true
      then some (pyOr (jLookup P "accessToken") (jLookup P "access_token"))
      else tks.access_token,
    refresh_token :=
      if truthy (pyOr (jLookup P "refreshToken") (jLookup P "refresh_token")) = true
      then some (pyOr (jLookup P "refreshToken") (jLookup P "refresh_token"))
      else if keep = false then none else tks.refresh_token,
    expires_at :=
      if pyOr (jLookup P "expiresIn") (jLookup P "expires_in") = JVal.null
      then tks.expires_at
      else
        match pyToFloat (pyOr (jLookup P "expiresIn") (jLookup P "expires_in")) with
        | some f => some (now + f)
        | none => none }

/-- An initialized client whose token does not currently need a refresh. -/
def Ready (c : Client) (now : Int) : Prop :=
  c.endpoints_loaded = true ∧ optStrTruthy c.rest_generics_base = true ∧
  optStrTruthy c.rest_device_base = true ∧ optTruthy c.tokens.id_token = true ∧
  token_needs_refresh c.tokens now = false

instance (c : Client) (now : Int) : Decidable (Ready c now) := by
  unfold Ready
  infer_instance

/-! ## Theorems -/

@[simp]
theorem pyStr_str (s : String) : pyStr (.str s) = s := by
  rw [pyStr]

theorem except_ok_bind {ε α β : Type} (a : α) (f : α → Except ε β) :
    (Except.ok a : Except ε α) >>= f = f a := rfl

theorem pyCondGet_obj (c : Prop) [inst : Decidable c] (x : JVal) (o : List (String × JVal))
    (k : String) :
    pyCondGet c x (.obj o) k = .ok (if c then x else jLookup o k) := by
  unfold pyCondGet
  split <;> rfl

@[simp]
theorem pyOr_obj_empty (kvs : List (String × JVal)) : pyOr (.obj kvs) (.obj []) = .obj kvs := by
  cases kvs <;> simp [pyOr, truthy]

theorem pyOr_default_of_dictOrFalsy (v : JVal) (h : dictOrFalsy v = true) :
    ∃ X, pyOr v (.obj []) = .obj X := by
  cases v <;> simp_all [dictOrFalsy, isObj, truthy, pyOr] <;> first
    | exact ⟨_, rfl⟩
    | (split <;> simp_all)

/-- Evaluation of `_extract_state` on any payload whose `state` sub-object
(after the `or \x7b\x7d` defaults) is a dict with dict-shaped
`settings`/`screenLock`/`heater`/`steamer`/`light`. -/
theorem extract_state_master (obj S SE SC H Sm L : List (String × JVal))
    (hst : pyOr (jLookup obj "state") (.obj []) = .obj S)
    (hse : pyOr (jLookup S "settings") (.obj []) = .obj SE)
    (hsc : pyOr (jLookup S "screenLock") (.obj []) = .obj SC)
    (hh : pyOr (jLookup S "heater") (.obj []) = .obj H)
    (hsm : pyOr (jLookup S "steamer") (.obj []) = .obj Sm)
    (hl : pyOr (jLookup S "light") (.obj []) = .obj L) :
    extract_state obj = .ok {
      connected :=
        match pyOr (jLookup obj "connectionState") (.obj []) with
        | .obj k => jLookup k "connected"
        | _ => .null,
      display_name := jLookup S "displayName",
      target_temperature :=
        if prof_field (active_profile_dict_of (jLookup S "activeProfile")
            (pyOr (jLookup S "profiles") (.obj []))) "targetTemp" ≠ JVal.null
        then prof_field (active_profile_dict_of (jLookup S "activeProfile")
            (pyOr (jLookup S "profiles") (.obj []))) "targetTemp"
        else jLookup S "targetTemp",
      humidity_setpoint :=
        if prof_field (active_profile_dict_of (jLookup S "activeProfile")
            (pyOr (jLookup S "profiles") (.obj []))) "targetHum" ≠ JVal.null
        then prof_field (active_profile_dict_of (jLookup S "activeProfile")
            (pyOr (jLookup S "profiles") (.obj []))) "targetHum"
        else jLookup S "targetHum",
      heater_on_raw :=
        if prof_actuator (active_profile_dict_of (jLookup S "activeProfile")
            (pyOr (jLookup S "profiles") (.obj []))) "heater" ≠ JVal.null
        then prof_actuator (active_profile_dict_of (jLookup S "activeProfile")
            (pyOr (jLookup S "profiles") (.obj []))) "heater"
        else jLookup H "on",
      heater_state := jLookup H "state",
      steamer_on_raw :=
        if prof_actuator (active_profile_dict_of (jLookup S "activeProfile")
            (pyOr (jLookup S "profiles") (.obj []))) "steamer" ≠ JVal.null
        then prof_actuator (active_profile_dict_of (jLookup S "activeProfile")
            (pyOr (jLookup S "profiles") (.obj []))) "steamer"
        else jLookup Sm "on",
      steamer_state := jLookup Sm "state",
      light_on_raw :=
        if prof_actuator (active_profile_dict_of (jLookup S "activeProfile")
            (pyOr (jLookup S "profiles") (.obj []))) "light" ≠ JVal.null
        then prof_actuator (active_profile_dict_of (jLookup S "activeProfile")
            (pyOr (jLookup S "profiles") (.obj []))) "light"
        else jLookup L "on",
      screen_lock_on := jLookup SC "on",
      setting_max_on_time := jLookup SE "maxOnTime",
      setting_max_temp := jLookup SE "maxTemp",
      setting_temp_calibration := jLookup SE "tempCalibration",
      setting_blackout_control := jLookup SE "blackoutControl",
      setting_dehumidification := jLookup SE "dehumidification",
      setting_remote_control := jLookup SE "remoteControl",
      setting_screen_saver_time := jLookup SE "screenSaverTime",
      setting_lock_settings := jLookup SE "lockSettings",
      setting_lock_additional := jLookup SE "lockAdditional",
      remote_allowed := jLookup S "remoteAllowed",
      demo_mode := jLookup S "demoMode",
      active_profile := jLookup S "activeProfile",
      sauna_status := jLookup S "saunaStatus",
      profiles := norm_profiles_of (pyOr (jLookup S "profiles") (.obj [])) } := by
  simp only [extract_state, hst, hse, hsc, hh, hsm, hl, pyGet, except_ok_bind, pyCondGet_obj]
  rfl

@[simp]
theorem pyOr_null (b : JVal) : pyOr .null b = b := rfl

theorem prof_field_non_obj {v : JVal} (h : isObj v = false) (k : String) :
    prof_field v k = .null := by
  cases v <;> simp_all [isObj, prof_field]

theorem prof_actuator_non_obj {v : JVal} (h : isObj v = false) (k : String) :
    prof_actuator v k = .null := by
  cases v <;> simp_all [isObj, prof_actuator]

theorem pyGetOr2_obj (P : List (String × JVal)) (k1 k2 : String) :
    pyGetOr2 (.obj P) k1 k2 = .ok (pyOr (jLookup P k1) (jLookup P k2)) := by
  unfold pyGetOr2 pyGet pyOr
  simp only [bind, Except.bind]
  split <;> rfl

/-- Evaluation of `_apply_token_payload` on a dict payload as a field-wise
update of the token state. -/
theorem apply_token_payload_master (tks : HarviaTokens) (P : List (String × JVal))
    (keep : Bool) (now : Int) :
    apply_token_payload tks (.obj P) keep now = .ok (apply_token_record tks P keep now) := by
  simp only [apply_token_payload, pyGetOr2_obj, except_ok_bind, apply_token_record]
  split_ifs <;> try rfl
  all_goals try (split <;> rfl)
  all_goals simp_all

/-- In `norm_profiles_of`, the first profile entry at a key survives
normalization when it is a dict. -/
theorem jFind_norm_profiles (P : List (String × JVal)) (k : String)
    (pk : List (String × JVal)) (h : jFind P k = some (.obj pk)) :
    jFind (norm_profiles_of (.obj P)) k = some (normProfile pk) := by
  induction P with
  | nil => simp [jFind] at h
  | cons hd tl ih =>
    obtain ⟨k0, v0⟩ := hd
    by_cases hk : k0 == k
    · simp only [jFind, hk, if_pos] at h
      cases h
      simp [norm_profiles_of, List.filterMap_cons, jFind, hk]
    · simp only [jFind, hk, if_neg, Bool.false_eq_true, reduceIte] at h
      have ih' := ih h
      simp only [norm_profiles_of, List.filterMap_cons] at ih' ⊢
      cases v0 <;> simp_all [jFind, hk, norm_profiles_of]

/-- C6: for a token obtained with `expires_in = 3600` and skew 60 s
(`_apply_token_payload` sets `expires_at = now + expires_in`),
`_token_needs_refresh` is false immediately after issuance and becomes
true exactly when the current time reaches or passes
`expires_at - skew`. -/
theorem token_refresh_window (t0 : Int) (h : 0 ≤ t0) :
    apply_token_payload ⟨none, none, none, none⟩
        (.obj [("idToken", .str "tok"), ("expiresIn", .num 3600)]) false t0
      = .ok ⟨some (.str "tok"), none, none, some (t0 + 3600)⟩ ∧
    token_needs_refresh ⟨some (.str "tok"), none, none, some (t0 + 3600)⟩ t0 = false ∧
    ∀ t : Int, token_needs_refresh ⟨some (.str "tok"), none, none, some (t0 + 3600)⟩ t
      = decide (t0 + 3600 - expirySkew ≤ t) := by
  have h1 : ¬ (t0 + 3600 = 0) := by omega
  refine ⟨rfl, ?_, ?_⟩
  · simp [token_needs_refresh, optTruthy, truthy, expirySkew, h1]
  · intro t
    simp [token_needs_refresh, optTruthy, truthy, expirySkew, h1]

/-- Witness for `token_refresh_window` at `t0 = 0`. -/
theorem token_refresh_window_witness :
    token_needs_refresh ⟨some (.str "tok"), none, none, some (0 + 3600)⟩ 0 = false ∧
    token_needs_refresh ⟨some (.str "tok"), none, none, some (0 + 3600)⟩ 3540 = true := by
  refine ⟨(token_refresh_window 0 (by decide)).2.1, ?_⟩
  have h := (token_refresh_window 0 (by decide)).2.2 3540
  simpa using h

/-- C9: `_token_needs_refresh` treats a token state without an `id_token`
as always needing refresh, and a token state with an `id_token` but no
`expires_at` as never needing refresh. -/
theorem staleness_absent_fields (tks : HarviaTokens) (now : Int) :
    (optTruthy tks.id_token = false → token_needs_refresh tks now = true) ∧
    (optTruthy tks.id_token = true → tks.expires_at = none →
      token_needs_refresh tks now = false) := by
  constructor
  · intro h
    simp [token_needs_refresh, h]
  · intro h he
    simp [token_needs_refresh, h, he]

/-- Witness for `staleness_absent_fields`. -/
theorem staleness_absent_fields_witness :
    token_needs_refresh ⟨none, none, none, none⟩ 123 = true ∧
    token_needs_refresh ⟨some (.str "t"), none, none, none⟩ 999999 = false := by
  exact ⟨(staleness_absent_fields ⟨none, none, none, none⟩ 123).1 (by decide),
    (staleness_absent_fields ⟨some (.str "t"), none, none, none⟩ 999999).2 (by decide) rfl⟩

/-- C8: `get_devices` parsing accepts the list top-level or under a
`devices` key, skips non-object entries, selects ids by priority
`id` > `deviceId` > `name`, and drops entries whose three candidates are
all falsy; on `[{"id":"a","type":"t1"},{"type":"t2"}]` exactly the device
with an id survives. -/
theorem parse_devices_spec :
    parse_devices (.arr [.obj [("id", .str "a"), ("type", .str "t1")],
        .obj [("type", .str "t2")]])
      = [{ id := "a", type := "t1", name := "a", attr := .arr [], state := none }] ∧
    (∀ (kvs : List (String × JVal)) (items : List JVal),
      jLookup kvs "devices" = .arr items →
      parse_devices (.obj kvs) = parse_devices (.arr items)) ∧
    (∀ (item : JVal) (rest : List JVal), isObj item = false →
      parse_devices (.arr (item :: rest)) = parse_devices (.arr rest)) ∧
    (∀ (kvs : List (String × JVal)) (rest : List JVal) (s : String),
      jLookup kvs "id" = .str s → s ≠ "" →
      (parse_devices (.arr (.obj kvs :: rest))).map HarviaDevice.id
        = s :: (parse_devices (.arr rest)).map HarviaDevice.id) ∧
    (∀ (kvs : List (String × JVal)) (rest : List JVal) (s : String),
      truthy (jLookup kvs "id") = false →
      jLookup kvs "deviceId" = .str s → s ≠ "" →
      (parse_devices (.arr (.obj kvs :: rest))).map HarviaDevice.id
        = s :: (parse_devices (.arr rest)).map HarviaDevice.id) ∧
    (∀ (kvs : List (String × JVal)) (rest : List JVal) (s : String),
      truthy (jLookup kvs "id") = false → truthy (jLookup kvs "deviceId") = false →
      jLookup kvs "name" = .str s → s ≠ "" →
      (parse_devices (.arr (.obj kvs :: rest))).map HarviaDevice.id
        = s :: (parse_devices (.arr rest)).map HarviaDevice.id) ∧
    (∀ (kvs : List (String × JVal)) (rest : List JVal),
      truthy (jLookup kvs "id") = false → truthy (jLookup kvs "deviceId") = false →
      truthy (jLookup kvs "name") = false →
      parse_devices (.arr (.obj kvs :: rest)) = parse_devices (.arr rest)) := by
  refine ⟨by decide, ?_, ?_, ?_, ?_, ?_, ?_⟩
  · intro kvs items h
    simp [parse_devices, h]
  · intro item rest h
    cases item <;> simp_all [parse_devices, isObj, List.filterMap_cons]
  · intro kvs rest s hid hs
    simp only [parse_devices, List.filterMap_cons, pyOr, hid]
    simp [truthy, hs]
  · intro kvs rest s hid hdev hs
    simp only [parse_devices, List.filterMap_cons, pyOr, hid, hdev]
    simp [truthy, hs]
  · intro kvs rest s hid hdev hname hs
    simp only [parse_devices, List.filterMap_cons, pyOr, hid, hdev, hname]
    simp [truthy, hs]
  · intro kvs rest hid hdev hname
    simp only [parse_devices, List.filterMap_cons, pyOr, hid, hdev, hname]
    simp [truthy]

/-- Witness for `parse_devices_spec` at concrete inputs. -/
theorem parse_devices_spec_witness :
    parse_devices (.obj [("devices", .arr [])]) = parse_devices (.arr []) ∧
    parse_devices (.arr [.num 7]) = parse_devices (.arr []) ∧
    (parse_devices (.arr [.obj [("id", .str "x")]])).map HarviaDevice.id
      = "x" :: (parse_devices (.arr [])).map HarviaDevice.id ∧
    (parse_devices (.arr [.obj [("deviceId", .str "d")]])).map HarviaDevice.id
      = "d" :: (parse_devices (.arr [])).map HarviaDevice.id ∧
    (parse_devices (.arr [.obj [("name", .str "n")]])).map HarviaDevice.id
      = "n" :: (parse_devices (.arr [])).map HarviaDevice.id ∧
    parse_devices (.arr [.obj [("id", .str "")]]) = parse_devices (.arr []) := by
  refine ⟨parse_devices_spec.2.1 [("devices", .arr [])] [] rfl,
    parse_devices_spec.2.2.1 (.num 7) [] rfl,
    parse_devices_spec.2.2.2.1 [("id", .str "x")] [] "x" rfl (by decide),
    parse_devices_spec.2.2.2.2.1 [("deviceId", .str "d")] [] "d" (by decide) rfl (by decide),
    parse_devices_spec.2.2.2.2.2.1 [("name", .str "n")] [] "n" (by decide) (by decide) rfl
      (by decide),
    parse_devices_spec.2.2.2.2.2.2 [("id", .str "")] [] (by decide) (by decide) (by decide)⟩

/-- C7: in `_extract_state`, when `activeProfile` coerced to an integer
matches a string key of `profiles`, that profile's `targetTemp`/`targetHum`
and actuator `on` flags take precedence over the root values (falling back
to the root value when the profile field is absent); the actual-state
fields (`heater_state`/`steamer_state`) always come from the root; every
profile dict is retained keyed by its original string index; and the two
spec examples yield 80 and 60. -/
theorem extract_state_profile_precedence :
    ((extract_state [("state", .obj [("activeProfile", .num 1),
        ("profiles", .obj [("1", .obj [("targetTemp", .num 80)])]),
        ("targetTemp", .num 60)])]).map NormState.target_temperature = .ok (.num 80)) ∧
    ((extract_state [("state", .obj [("activeProfile", .num 1),
        ("profiles", .obj [("2", .obj [("targetTemp", .num 80)])]),
        ("targetTemp", .num 60)])]).map NormState.target_temperature = .ok (.num 60)) ∧
    (∀ (ap rt rh : JVal) (P H Sm L APD : List (String × JVal)),
      active_profile_dict_of ap (.obj P) = .obj APD →
      ∃ ns, extract_state (samplePayload ap rt rh P H Sm L) = .ok ns ∧
        (jLookup APD "targetTemp" ≠ .null → ns.target_temperature = jLookup APD "targetTemp") ∧
        (jLookup APD "targetTemp" = .null → ns.target_temperature = rt) ∧
        (jLookup APD "targetHum" ≠ .null → ns.humidity_setpoint = jLookup APD "targetHum") ∧
        (jLookup APD "targetHum" = .null → ns.humidity_setpoint = rh) ∧
        (∀ PH, jLookup APD "heater" = .obj PH →
          (jLookup PH "on" ≠ .null → ns.heater_on_raw = jLookup PH "on") ∧
          (jLookup PH "on" = .null → ns.heater_on_raw = jLookup H "on")) ∧
        ns.heater_state = jLookup H "state" ∧
        ns.steamer_state = jLookup Sm "state" ∧
        ns.profiles = norm_profiles_of (.obj P)) ∧
    (∀ (ap rt rh : JVal) (P H Sm L : List (String × JVal)),
      isObj (active_profile_dict_of ap (.obj P)) = false →
      ∃ ns, extract_state (samplePayload ap rt rh P H Sm L) = .ok ns ∧
        ns.target_temperature = rt ∧ ns.humidity_setpoint = rh ∧
        ns.heater_on_raw = jLookup H "on" ∧ ns.heater_state = jLookup H "state") ∧
    (∀ (P : List (String × JVal)) (k : String) (pk : List (String × JVal)),
      jFind P k = some (.obj pk) →
      jFind (norm_profiles_of (.obj P)) k = some (normProfile pk)) := by
  refine ⟨by rfl, by rfl, ?_, ?_, ?_⟩
  · intro ap rt rh P H Sm L APD hAPD
    have hm := extract_state_master (samplePayload ap rt rh P H Sm L)
      [("activeProfile", ap), ("profiles", .obj P), ("targetTemp", rt), ("targetHum", rh),
        ("heater", .obj H), ("steamer", .obj Sm), ("light", .obj L)]
      [] [] H Sm L (by simp [samplePayload, jLookup]) (by simp [jLookup]) (by simp [jLookup])
      (by simp [jLookup]) (by simp [jLookup]) (by simp [jLookup])
    refine ⟨_, hm, ?_, ?_, ?_, ?_, ?_, ?_, ?_, ?_⟩
    · intro h
      simp [jLookup, hAPD, prof_field, h]
    · intro h
      simp [jLookup, hAPD, prof_field, h]
    · intro h
      simp [jLookup, hAPD, prof_field, h]
    · intro h
      simp [jLookup, hAPD, prof_field, h]
    · intro PH hPH
      constructor <;> intro h <;> simp [jLookup, hAPD, prof_actuator, hPH, h]
    · rfl
    · rfl
    · simp [jLookup]
  · intro ap rt rh P H Sm L hap
    have hm := extract_state_master (samplePayload ap rt rh P H Sm L)
      [("activeProfile", ap), ("profiles", .obj P), ("targetTemp", rt), ("targetHum", rh),
        ("heater", .obj H), ("steamer", .obj Sm), ("light", .obj L)]
      [] [] H Sm L (by simp [samplePayload, jLookup]) (by simp [jLookup]) (by simp [jLookup])
      (by simp [jLookup]) (by simp [jLookup]) (by simp [jLookup])
    refine ⟨_, hm, ?_, ?_, ?_, rfl⟩
    · simp only [jLookup]
      simp [prof_field_non_obj, hap, prof_field_non_obj hap]
    · simp only [jLookup]
      simp [prof_field_non_obj hap]
    · simp only [jLookup]
      simp [prof_actuator_non_obj hap]
  · intro P k pk h
    exact jFind_norm_profiles P k pk h

/-- Witness for `extract_state_profile_precedence` at concrete payloads. -/
theorem extract_state_profile_precedence_witness :
    ((extract_state (samplePayload (.num 1) (.num 60) .null
        [("1", .obj [("targetTemp", .num 80)])] [] [] [])).map
        NormState.target_temperature = .ok (.num 80)) ∧
    ((extract_state (samplePayload .null (.num 60) .null
        [("1", .obj [("targetTemp", .num 80)])] [] [] [])).map
        NormState.target_temperature = .ok (.num 60)) ∧
    jFind (norm_profiles_of (.obj [("1", .obj [])])) "1" = some (normProfile []) := by
  refine ⟨?_, ?_, ?_⟩
  · obtain ⟨ns, hns, h1, -⟩ :=
      extract_state_profile_precedence.2.2.1 (.num 1) (.num 60) .null
        [("1", .obj [("targetTemp", .num 80)])] [] [] [] [("targetTemp", .num 80)] rfl
    simp [hns, Except.map, h1 (by decide), jLookup]
  · obtain ⟨ns, hns, h1, -, -, -⟩ :=
      extract_state_profile_precedence.2.2.2.1 .null (.num 60) .null
        [("1", .obj [("targetTemp", .num 80)])] [] [] [] (by decide)
    simp [hns, Except.map, h1]
  · exact extract_state_profile_precedence.2.2.2.2 [("1", .obj [])] "1" [] rfl

/-- C10 counterexample: a dict raw payload whose `state` value is a truthy
non-dict makes `_extract_state` raise (`AttributeError`) instead of
returning a record, so normalization is not total on arbitrary JSON. -/
theorem extract_state_raises_counterexample :
    extract_state [("state", JVal.num 5)] = .error .attrError := by rfl

/-- C10 (amended): normalization returns a record with all normalized keys
present (and never raises) whenever the `state` field and its
`settings`/`screenLock`/`heater`/`steamer`/`light` sub-fields are each a
dict, null, falsy, or absent; an `activeProfile` that is not coercible to
an integer merely yields no profile overrides; a non-dict raw state
response yields the empty state record. -/
theorem extract_state_total (kvs S : List (String × JVal))
    (hst : pyOr (jLookup kvs "state") (.obj []) = .obj S)
    (h1 : dictOrFalsy (jLookup S "settings") = true)
    (h2 : dictOrFalsy (jLookup S "screenLock") = true)
    (h3 : dictOrFalsy (jLookup S "heater") = true)
    (h4 : dictOrFalsy (jLookup S "steamer") = true)
    (h5 : dictOrFalsy (jLookup S "light") = true) :
    (∃ ns, extract_state kvs = .ok ns) ∧
    (∀ raw, isObj raw = false → refresh_device_state_normalize raw = .ok none) ∧
    (∀ ap rp, pyToInt ap = none → active_profile_dict_of ap rp = .null) := by
  refine ⟨?_, ?_, ?_⟩
  · obtain ⟨SE, hse⟩ := pyOr_default_of_dictOrFalsy _ h1
    obtain ⟨SC, hsc⟩ := pyOr_default_of_dictOrFalsy _ h2
    obtain ⟨H, hh⟩ := pyOr_default_of_dictOrFalsy _ h3
    obtain ⟨Sm, hsm⟩ := pyOr_default_of_dictOrFalsy _ h4
    obtain ⟨L, hl⟩ := pyOr_default_of_dictOrFalsy _ h5
    exact ⟨_, extract_state_master kvs S SE SC H Sm L hst hse hsc hh hsm hl⟩
  · intro raw h
    cases raw <;> simp_all [isObj, refresh_device_state_normalize]
  · intro ap rp h
    simp [active_profile_dict_of, h]

/-- Witness for `extract_state_total`: falsy sub-fields of every kind and
a non-coercible `activeProfile`. -/
theorem extract_state_total_witness :
    (extract_state [("state", .obj [("settings", .null), ("screenLock", .num 0),
        ("heater", .str ""), ("steamer", .arr []), ("light", .obj [("on", .bool true)]),
        ("activeProfile", .str "xyz")])]).isOk = true ∧
    refresh_device_state_normalize (.num 3) = .ok none ∧
    active_profile_dict_of (.str "xyz") (.obj [("1", .num 2)]) = .null := by
  obtain ⟨⟨ns, hns⟩, hr, ha⟩ := extract_state_total
    [("state", .obj [("settings", .null), ("screenLock", .num 0),
      ("heater", .str ""), ("steamer", .arr []), ("light", .obj [("on", .bool true)]),
      ("activeProfile", .str "xyz")])]
    [("settings", .null), ("screenLock", .num 0), ("heater", .str ""),
      ("steamer", .arr []), ("light", .obj [("on", .bool true)]),
      ("activeProfile", .str "xyz")]
    (by decide) (by decide) (by decide) (by decide) (by decide) (by decide)
  exact ⟨by simp [hns, Except.isOk, Except.toBool], hr (.num 3) (by decide),
    ha (.str "xyz") (.obj [("1", .num 2)]) (by decide)⟩

/-- `async_init` on an already-initialized client with a token is a no-op:
no request is issued and the client is unchanged. -/
theorem async_init_noop (c : Client) (w : List HResp) (now : Int)
    (h1 : c.endpoints_loaded = true) (h2 : optStrTruthy c.rest_generics_base = true)
    (h3 : optStrTruthy c.rest_device_base = true)
    (h4 : optTruthy c.tokens.id_token = true) :
    async_init c w now = ⟨.ok (), c, w, []⟩ := by
  simp [async_init, Step.andThen, h1, h2, h3, h4]

/-- C3 counterexample: a discovery document that lacks the `data` base
still resolves successfully (the `data` base is optional, recorded as
absent), and a non-2xx status below 400 (here 304) also resolves; so
"lacks any of the three required named bases" and "non-2xx" are not
failure conditions. -/
theorem load_endpoints_data_optional_counterexample :
    (load_endpoints ⟨"u", "p", ⟨none, none, none, none⟩, false, none, none, none⟩
      [⟨200, .json (.obj [("endpoints", .obj [("RestApi", .obj
        [("generics", .obj [("https", .str "https://g")]),
          ("device", .obj [("https", .str "https://d")])])])])⟩]).result = .ok () ∧
    (load_endpoints ⟨"u", "p", ⟨none, none, none, none⟩, false, none, none, none⟩
      [⟨200, .json (.obj [("endpoints", .obj [("RestApi", .obj
        [("generics", .obj [("https", .str "https://g")]),
          ("device", .obj [("https", .str "https://d")])])])])⟩]).client.rest_data_base
      = none ∧
    (load_endpoints ⟨"u", "p", ⟨none, none, none, none⟩, false, none, none, none⟩
      [⟨200, .json (.obj [("endpoints", .obj [("RestApi", .obj
        [("generics", .obj [("https", .str "https://g")]),
          ("device", .obj [("https", .str "https://d")])])])])⟩]).client.endpoints_loaded
      = true ∧
    (load_endpoints ⟨"u", "p", ⟨none, none, none, none⟩, false, none, none, none⟩
      [⟨304, .json (.obj [("endpoints", .obj [("RestApi", .obj
        [("generics", .obj [("https", .str "https://g")]),
          ("device", .obj [("https", .str "https://d")]),
          ("data", .obj [("https", .str "https://x")])])])])⟩]).result = .ok () := by
  exact ⟨rfl, rfl, rfl, rfl⟩

/-- C3 (amended): endpoint resolution fails whenever the discovery
response has a status of 400 or above, is not parseable JSON, or lacks
either of the two required bases (`generics`, `device` — any failure of
the extraction block); a missing `data` base is tolerated and recorded as
absent; and after one successful resolution (`_endpoints_loaded` set with
truthy bases and a token present) `async_init` is idempotent: the
`EndpointSet` is not re-fetched and nothing is issued. -/
theorem load_endpoints_failures (c : Client) (resp : HResp) (w : List HResp) :
    (400 ≤ resp.status →
      (load_endpoints c (resp :: w)).result = .error (.httpFail resp.status resp.text)) ∧
    (resp.status < 400 → resp.text = .invalid →
      (load_endpoints c (resp :: w)).result = .error .jsonDecode) ∧
    (∀ data, resp.status < 400 → resp.text = .json data → parseEndpointBases data = none →
      (load_endpoints c (resp :: w)).result = .error (.runtime "Endpoints parsing failed")) ∧
    (∀ now, c.endpoints_loaded = true → optStrTruthy c.rest_generics_base = true →
      optStrTruthy c.rest_device_base = true → optTruthy c.tokens.id_token = true →
      async_init c w now = ⟨.ok (), c, w, []⟩) := by
  refine ⟨?_, ?_, ?_, ?_⟩
  · intro h
    simp [load_endpoints, h]
  · intro h ht
    have h' : ¬ (400 ≤ resp.status) := by omega
    simp [load_endpoints, h', ht, jsonLoadsOrEmpty]
  · intro data h ht hp
    have h' : ¬ (400 ≤ resp.status) := by omega
    simp [load_endpoints, h', ht, jsonLoadsOrEmpty, hp]
  · intro now h1 h2 h3 h4
    exact async_init_noop c w now h1 h2 h3 h4

/-- Witness for `load_endpoints_failures` at concrete inputs. -/
theorem load_endpoints_failures_witness :
    (load_endpoints ⟨"u", "p", ⟨none, none, none, none⟩, false, none, none, none⟩
      [⟨500, .json (.obj [])⟩]).result = .error (.httpFail 500 (.json (.obj []))) ∧
    (load_endpoints ⟨"u", "p", ⟨none, none, none, none⟩, false, none, none, none⟩
      [⟨200, .invalid⟩]).result = .error .jsonDecode ∧
    (load_endpoints ⟨"u", "p", ⟨none, none, none, none⟩, false, none, none, none⟩
      [⟨200, .json (.obj [("endpoints", .obj [("RestApi", .obj
        [("generics", .obj [("https", .str "https://g")])])])])⟩]).result
      = .error (.runtime "Endpoints parsing failed") ∧
    async_init ⟨"u", "p", ⟨some (.str "tok"), none, none, none⟩, true,
        some "https://g", some "https://d", none⟩ [] 0
      = ⟨.ok (), ⟨"u", "p", ⟨some (.str "tok"), none, none, none⟩, true,
        some "https://g", some "https://d", none⟩, [], []⟩ := by
  refine ⟨?_, ?_, ?_, ?_⟩
  · exact (load_endpoints_failures _ ⟨500, .json (.obj [])⟩ []).1 (by decide)
  · exact (load_endpoints_failures _ ⟨200, .invalid⟩ []).2.1 (by decide) rfl
  · exact (load_endpoints_failures _ ⟨200, .json (.obj [("endpoints", .obj [("RestApi", .obj
      [("generics", .obj [("https", .str "https://g")])])])])⟩ []).2.2.1 _ (by decide) rfl
      (by decide)
  · exact (load_endpoints_failures ⟨"u", "p", ⟨some (.str "tok"), none, none, none⟩, true,
      some "https://g", some "https://d", none⟩ ⟨200, .empty⟩ []).2.2.2 0 rfl (by decide)
      (by decide) (by decide)

/-- C5: a successful authenticate or refresh whose payload carries a
truthy id token and `expiresIn = n` sets `id_token` and recomputes
`expires_at = now + n`; a successful refresh whose payload omits (or has
falsy) `refreshToken` preserves the stored refresh token, while a fresh
login without one clears it; and `_refresh` returns `False` rather than
raising on any status of 400 or above (including 401/403). -/
theorem token_payload_invariants :
    (∀ (tks : HarviaTokens) (P : List (String × JVal)) (v : JVal) (n now : Int) (keep : Bool),
      pyOr (jLookup P "idToken") (jLookup P "id_token") = v → truthy v = true →
      pyOr (jLookup P "expiresIn") (jLookup P "expires_in") = .num n →
      ∃ tks', apply_token_payload tks (.obj P) keep now = .ok tks' ∧
        tks'.id_token = some v ∧ tks'.expires_at = some (now + n)) ∧
    (∀ (c : Client) (g : String) (w : List HResp) (now : Int) (resp : HResp)
        (P : List (String × JVal)),
      c.rest_generics_base = some g → optTruthy c.tokens.refresh_token = true →
      resp.status < 400 → resp.text = .json (.obj P) →
      truthy (pyOr (jLookup P "refreshToken") (jLookup P "refresh_token")) = false →
      ∃ tks', apply_token_payload c.tokens (.obj P) true now = .ok tks' ∧
        refreshCall c (resp :: w) now
          = ⟨.ok (optTruthy tks'.id_token), { c with tokens := tks' }, w, [.authRefresh]⟩ ∧
        tks'.refresh_token = c.tokens.refresh_token) ∧
    (∀ (c : Client) (g : String) (w : List HResp) (now : Int) (resp : HResp)
        (P : List (String × JVal)),
      c.rest_generics_base = some g → resp.status < 400 → resp.text = .json (.obj P) →
      truthy (pyOr (jLookup P "refreshToken") (jLookup P "refresh_token")) = false →
      ∃ tks', apply_token_payload c.tokens (.obj P) false now = .ok tks' ∧
        authenticate c (resp :: w) now
          = ⟨.ok (), { c with tokens := tks' }, w, [.authToken]⟩ ∧
        tks'.refresh_token = none) ∧
    (∀ (c : Client) (g : String) (w : List HResp) (now : Int) (resp : HResp),
      c.rest_generics_base = some g → optTruthy c.tokens.refresh_token = true →
      400 ≤ resp.status →
      refreshCall c (resp :: w) now = ⟨.ok false, c, w, [.authRefresh]⟩) := by
  refine ⟨?_, ?_, ?_, ?_⟩
  · intro tks P v n now keep hv htr hn
    refine ⟨_, apply_token_payload_master tks P keep now, ?_, ?_⟩
    · simp [apply_token_record, hv, htr]
    · simp [apply_token_record, hn, pyToFloat]
  · intro c g w now resp P hg hrt hlt ht hrf
    have h401 : ¬ (resp.status = 401 ∨ resp.status = 403) := by omega
    have h400 : ¬ (400 ≤ resp.status) := by omega
    refine ⟨_, apply_token_payload_master c.tokens P true now, ?_, ?_⟩
    · simp [refreshCall, hg, hrt, h401, h400, ht, jsonLoadsOrEmpty,
        apply_token_payload_master]
    · simp [apply_token_record, hrf]
  · intro c g w now resp P hg hlt ht hrf
    have h401 : ¬ (resp.status = 401 ∨ resp.status = 403) := by omega
    have h400 : ¬ (400 ≤ resp.status) := by omega
    refine ⟨_, apply_token_payload_master c.tokens P false now, ?_, ?_⟩
    · simp [authenticate, hg, h401, h400, ht, jsonLoadsOrEmpty, apply_token_payload_master]
    · simp [apply_token_record, hrf]
  · intro c g w now resp hg hrt h400
    by_cases h401 : resp.status = 401 ∨ resp.status = 403 <;>
      simp [refreshCall, hg, hrt, h401, h400]

/-- Witness for `token_payload_invariants` at concrete inputs. -/
theorem token_payload_invariants_witness :
    (∃ tks', apply_token_payload ⟨none, none, none, none⟩
        (.obj [("idToken", .str "id1"), ("expiresIn", .num 3600)]) true 100 = .ok tks' ∧
      tks'.id_token = some (.str "id1") ∧ tks'.expires_at = some (100 + 3600)) ∧
    (∃ c' ok, refreshCall
        ⟨"u", "p", ⟨some (.str "old"), none, some (.str "rt"), none⟩, true,
          some "https://g", some "https://d", none⟩
        [⟨200, .json (.obj [("idToken", .str "id2")])⟩] 0
        = ⟨.ok ok, c', [], [.authRefresh]⟩ ∧
      c'.tokens.refresh_token = some (.str "rt")) ∧
    (∃ c', authenticate
        ⟨"u", "p", ⟨none, none, some (.str "rt"), none⟩, true,
          some "https://g", some "https://d", none⟩
        [⟨200, .json (.obj [("idToken", .str "id3")])⟩] 0
        = ⟨.ok (), c', [], [.authToken]⟩ ∧
      c'.tokens.refresh_token = none) ∧
    refreshCall
        ⟨"u", "p", ⟨some (.str "old"), none, some (.str "rt"), none⟩, true,
          some "https://g", some "https://d", none⟩
        [⟨401, .empty⟩] 0
      = ⟨.ok false, ⟨"u", "p", ⟨some (.str "old"), none, some (.str "rt"), none⟩, true,
          some "https://g", some "https://d", none⟩, [], [.authRefresh]⟩ := by
  refine ⟨?_, ?_, ?_, ?_⟩
  · exact token_payload_invariants.1 ⟨none, none, none, none⟩
      [("idToken", .str "id1"), ("expiresIn", .num 3600)] (.str "id1") 3600 100 true
      (by decide) (by decide) (by decide)
  · obtain ⟨tks', -, heq, hrt⟩ := token_payload_invariants.2.1
      ⟨"u", "p", ⟨some (.str "old"), none, some (.str "rt"), none⟩, true,
        some "https://g", some "https://d", none⟩
      "https://g" [] 0 ⟨200, .json (.obj [("idToken", .str "id2")])⟩
      [("idToken", .str "id2")] rfl (by decide) (by decide) rfl (by decide)
    exact ⟨_, _, heq, by rw [hrt]⟩
  · obtain ⟨tks', -, heq, hrt⟩ := token_payload_invariants.2.2.1
      ⟨"u", "p", ⟨none, none, some (.str "rt"), none⟩, true,
        some "https://g", some "https://d", none⟩
      "https://g" [] 0 ⟨200, .json (.obj [("idToken", .str "id3")])⟩
      [("idToken", .str "id3")] rfl (by decide) rfl (by decide)
    exact ⟨_, heq, hrt⟩
  · exact token_payload_invariants.2.2.2
      ⟨"u", "p", ⟨some (.str "old"), none, some (.str "rt"), none⟩, true,
        some "https://g", some "https://d", none⟩
      "https://g" [] 0 ⟨401, .empty⟩ rfl (by decide) (by decide)

/-- `_ensure_valid_token` without force on a ready client is a no-op. -/
theorem ensure_noop (c : Client) (w : List HResp) (now : Int) (h : Ready c now) :
    ensure_valid_token c w now false = ⟨.ok (), c, w, []⟩ := by
  obtain ⟨h1, h2, h3, h4, h5⟩ := h
  simp [ensure_valid_token, async_init_noop c w now h1 h2 h3 h4, Step.andThen, h5, h4]

/-- `_refresh` on a successful refresh response applies the token payload
and returns the truthiness of the new id token. -/
theorem refreshCall_success (c : Client) (w : List HResp) (now : Int) (resp : HResp)
    (P : List (String × JVal)) (g : String)
    (hg : c.rest_generics_base = some g) (hrt : optTruthy c.tokens.refresh_token = true)
    (hlt : resp.status < 400) (ht : resp.text = .json (.obj P)) :
    refreshCall c (resp :: w) now
      = ⟨.ok (optTruthy (apply_token_record c.tokens P true now).id_token),
          { c with tokens := apply_token_record c.tokens P true now }, w, [.authRefresh]⟩ := by
  have h401 : ¬ (resp.status = 401 ∨ resp.status = 403) := by omega
  have h400 : ¬ (400 ≤ resp.status) := by omega
  simp [refreshCall, hg, hrt, h401, h400, ht, jsonLoadsOrEmpty, apply_token_payload_master]

/-- `_ensure_valid_token` with force on a ready client performs exactly
one refresh request and installs the refreshed tokens. -/
theorem ensure_force_refresh (c : Client) (w : List HResp) (now : Int) (rT : HResp)
    (PT : List (String × JVal)) (h : Ready c now)
    (hrt : optTruthy c.tokens.refresh_token = true)
    (hst : rT.status < 400) (htx : rT.text = .json (.obj PT))
    (hid : truthy (pyOr (jLookup PT "idToken") (jLookup PT "id_token")) = true) :
    ensure_valid_token c (rT :: w) now true
      = ⟨.ok (), { c with tokens := apply_token_record c.tokens PT true now }, w,
          [.authRefresh]⟩ := by
  obtain ⟨h1, h2, h3, h4, h5⟩ := h
  obtain ⟨g, hg⟩ : ∃ g, c.rest_generics_base = some g := by
    cases hcg : c.rest_generics_base
    · rw [hcg] at h2
      simp [optStrTruthy] at h2
    · exact ⟨_, rfl⟩
  have hidv : optTruthy (apply_token_record c.tokens PT true now).id_token = true := by
    simp [apply_token_record, hid, optTruthy]
  simp [ensure_valid_token, async_init_noop c _ now h1 h2 h3 h4, Step.andThen,
    refreshCall_success c w now rT PT g hg hrt hst htx, hidv]

/-- C2: for every REST call from a ready client, a first-attempt status
below 400 returns the parsed first body; a first-attempt 401/403 triggers
exactly one retry with a forced token refresh, after which a status below
400 yields the second attempt's parsed body (an empty body yielding an
empty object via `jsonLoadsOrEmpty`), a second 401/403 raises
`HarviaAuthError`, and any other status of 400 or above on either attempt
raises the `RuntimeError` carrying the status and body text (the spec's
`ApiError`). -/
theorem rest_call_auth_retry (c : Client) (now : Int) (base method path : String)
    (hr : Ready c now) (hb : base ≠ "") :
    (∀ (r1 : HResp) (w : List HResp), r1.status < 400 →
      rest_call c (r1 :: w) now (some base) method path
        = ⟨jsonLoadsOrEmpty r1.text, c, w,
            [.rest method (rstripSlash base ++ "/" ++ lstripSlash path)]⟩) ∧
    (∀ (r1 : HResp) (w : List HResp),
      400 ≤ r1.status → ¬ (r1.status = 401 ∨ r1.status = 403) →
      rest_call c (r1 :: w) now (some base) method path
        = ⟨.error (.httpFail r1.status r1.text), c, w,
            [.rest method (rstripSlash base ++ "/" ++ lstripSlash path)]⟩) ∧
    (∀ (r1 rT r2 : HResp) (PT : List (String × JVal)) (w : List HResp),
      (r1.status = 401 ∨ r1.status = 403) →
      optTruthy c.tokens.refresh_token = true →
      rT.status < 400 → rT.text = .json (.obj PT) →
      truthy (pyOr (jLookup PT "idToken") (jLookup PT "id_token")) = true →
      ((r2.status < 400 →
        rest_call c (r1 :: rT :: r2 :: w) now (some base) method path
          = ⟨jsonLoadsOrEmpty r2.text,
              { c with tokens := apply_token_record c.tokens PT true now }, w,
              [.rest method (rstripSlash base ++ "/" ++ lstripSlash path), .authRefresh,
                .rest method (rstripSlash base ++ "/" ++ lstripSlash path)]⟩) ∧
       ((r2.status = 401 ∨ r2.status = 403) →
        rest_call c (r1 :: rT :: r2 :: w) now (some base) method path
          = ⟨.error (.auth "Unauthorized"),
              { c with tokens := apply_token_record c.tokens PT true now }, w,
              [.rest method (rstripSlash base ++ "/" ++ lstripSlash path), .authRefresh,
                .rest method (rstripSlash base ++ "/" ++ lstripSlash path)]⟩) ∧
       (400 ≤ r2.status → ¬ (r2.status = 401 ∨ r2.status = 403) →
        rest_call c (r1 :: rT :: r2 :: w) now (some base) method path
          = ⟨.error (.httpFail r2.status r2.text),
              { c with tokens := apply_token_record c.tokens PT true now }, w,
              [.rest method (rstripSlash base ++ "/" ++ lstripSlash path), .authRefresh,
                .rest method (rstripSlash base ++ "/" ++ lstripSlash path)]⟩))) := by
  have hinit := fun v => async_init_noop c v now hr.1 hr.2.1 hr.2.2.1 hr.2.2.2.1
  have hb' : optStrTruthy (some base) = true := by
    simp [optStrTruthy, hb]
  refine ⟨?_, ?_, ?_⟩
  · intro r1 w h
    simp [rest_call, hinit (r1 :: w), Step.andThen, hb', ensure_noop c (r1 :: w) now hr, h]
  · intro r1 w h hne
    have h' : ¬ (r1.status < 400) := by omega
    simp [rest_call, hinit (r1 :: w), Step.andThen, hb', ensure_noop c (r1 :: w) now hr,
      h', hne]
  · intro r1 rT r2 PT w h401 hrt hTst hTtx hTid
    have h' : ¬ (r1.status < 400) := by omega
    refine ⟨?_, ?_, ?_⟩
    · intro h2
      simp [rest_call, hinit (r1 :: rT :: r2 :: w), Step.andThen, hb',
        ensure_noop c (r1 :: rT :: r2 :: w) now hr, h', h401,
        ensure_force_refresh c (r2 :: w) now rT PT hr hrt hTst hTtx hTid, h2]
    · intro h2
      have h2' : ¬ (r2.status < 400) := by omega
      simp [rest_call, hinit (r1 :: rT :: r2 :: w), Step.andThen, hb',
        ensure_noop c (r1 :: rT :: r2 :: w) now hr, h', h401,
        ensure_force_refresh c (r2 :: w) now rT PT hr hrt hTst hTtx hTid, h2, h2']
    · intro h2 h2ne
      have h2' : ¬ (r2.status < 400) := by omega
      simp [rest_call, hinit (r1 :: rT :: r2 :: w), Step.andThen, hb',
        ensure_noop c (r1 :: rT :: r2 :: w) now hr, h', h401,
        ensure_force_refresh c (r2 :: w) now rT PT hr hrt hTst hTtx hTid, h2', h2ne]

/-- Witness for `rest_call_auth_retry`: 200 first try; 500 first try;
401 then (after forced refresh) 200 returning the attempt-two body; and
401 on both attempts raising `HarviaAuthError`. -/
theorem rest_call_auth_retry_witness :
    rest_call ⟨"u", "p", ⟨some (.str "tok"), none, some (.str "rt"), some 1000000⟩, true,
        some "https://g", some "https://d", none⟩
      [⟨200, .empty⟩] 0 (some "https://d") "GET" "/devices"
      = ⟨.ok (.obj []),
          ⟨"u", "p", ⟨some (.str "tok"), none, some (.str "rt"), some 1000000⟩, true,
            some "https://g", some "https://d", none⟩,
          [], [.rest "GET" "https://d/devices"]⟩ ∧
    rest_call ⟨"u", "p", ⟨some (.str "tok"), none, some (.str "rt"), some 1000000⟩, true,
        some "https://g", some "https://d", none⟩
      [⟨500, .json (.str "boom")⟩] 0 (some "https://d") "GET" "/devices"
      = ⟨.error (.httpFail 500 (.json (.str "boom"))),
          ⟨"u", "p", ⟨some (.str "tok"), none, some (.str "rt"), some 1000000⟩, true,
            some "https://g", some "https://d", none⟩,
          [], [.rest "GET" "https://d/devices"]⟩ ∧
    rest_call ⟨"u", "p", ⟨some (.str "tok"), none, some (.str "rt"), some 1000000⟩, true,
        some "https://g", some "https://d", none⟩
      [⟨401, .empty⟩, ⟨200, .json (.obj [("idToken", .str "t2")])⟩,
        ⟨200, .json (.obj [("ok", .bool true)])⟩] 0 (some "https://d") "GET" "/devices"
      = ⟨.ok (.obj [("ok", .bool true)]),
          ⟨"u", "p", ⟨some (.str "t2"), none, some (.str "rt"), some 1000000⟩, true,
            some "https://g", some "https://d", none⟩,
          [], [.rest "GET" "https://d/devices", .authRefresh,
            .rest "GET" "https://d/devices"]⟩ ∧
    rest_call ⟨"u", "p", ⟨some (.str "tok"), none, some (.str "rt"), some 1000000⟩, true,
        some "https://g", some "https://d", none⟩
      [⟨401, .empty⟩, ⟨200, .json (.obj [("idToken", .str "t2")])⟩, ⟨401, .empty⟩] 0
      (some "https://d") "GET" "/devices"
      = ⟨.error (.auth "Unauthorized"),
          ⟨"u", "p", ⟨some (.str "t2"), none, some (.str "rt"), some 1000000⟩, true,
            some "https://g", some "https://d", none⟩,
          [], [.rest "GET" "https://d/devices", .authRefresh,
            .rest "GET" "https://d/devices"]⟩ := by
  have hth := rest_call_auth_retry
    ⟨"u", "p", ⟨some (.str "tok"), none, some (.str "rt"), some 1000000⟩, true,
      some "https://g", some "https://d", none⟩
    0 "https://d" "GET" "/devices" (by decide) (by decide)
  exact ⟨hth.1 ⟨200, .empty⟩ [] (by decide),
    hth.2.1 ⟨500, .json (.str "boom")⟩ [] (by decide) (by decide),
    (hth.2.2 ⟨401, .empty⟩ ⟨200, .json (.obj [("idToken", .str "t2")])⟩
      ⟨200, .json (.obj [("ok", .bool true)])⟩ [("idToken", .str "t2")] []
      (by decide) (by decide) (by decide) rfl (by decide)).1 (by decide),
    (hth.2.2 ⟨401, .empty⟩ ⟨200, .json (.obj [("idToken", .str "t2")])⟩
      ⟨401, .empty⟩ [("idToken", .str "t2")] []
      (by decide) (by decide) (by decide) rfl (by decide)).2.1 (by decide)⟩

/-- `_load_endpoints` always issues exactly the discovery request. -/
theorem load_endpoints_trace (c : Client) (w : List HResp) :
    (load_endpoints c w).trace = [.endpoints] := by
  unfold load_endpoints
  cases w with
  | nil => rfl
  | cons r rest =>
    repeat' split
    all_goals rfl

/-- `_authenticate` never issues a REST request. -/
theorem authenticate_no_rest (c : Client) (w : List HResp) (now : Int) (m u : String) :
    Req.rest m u ∉ (authenticate c w now).trace := by
  unfold authenticate
  repeat' split
  all_goals simp

/-- A request in a sequenced operation's trace comes from the first part
or, after its success, from the continuation. -/
theorem mem_andThen_trace {α β : Type} {r : Req} {s : Step α}
    {f : α → Client → List HResp → Step β}
    (h : r ∈ (s.andThen f).trace) :
    r ∈ s.trace ∨ ∃ a, s.result = .ok a ∧ r ∈ (f a s.client s.pending).trace := by
  unfold Step.andThen at h
  cases hs : s.result with
  | error e =>
    rw [hs] at h
    exact .inl h
  | ok a =>
    rw [hs] at h
    simp only [List.mem_append] at h
    rcases h with h | h
    · exact .inl h
    · exact .inr ⟨a, rfl, h⟩

/-- `async_init` issues only discovery and auth requests, never a REST
request. -/
theorem async_init_no_rest (c : Client) (w : List HResp) (now : Int) (m u : String) :
    Req.rest m u ∉ (async_init c w now).trace := by
  intro hmem
  unfold async_init at hmem
  set s1 : Step Unit := (if (!c.endpoints_loaded) = true then load_endpoints c w
    else ⟨.ok (), c, w, []⟩) with hs1
  have hs1trace : s1.trace = [] ∨ s1.trace = [.endpoints] := by
    rw [hs1]
    split
    · exact .inr (load_endpoints_trace c w)
    · exact .inl rfl
  clear_value s1
  rcases mem_andThen_trace hmem with h | ⟨a, ha, h⟩
  · rcases hs1trace with ht | ht <;> rw [ht] at h <;> simp at h
  · revert h
    split
    · simp
    · intro h
      rcases mem_andThen_trace h with h2 | ⟨b, hb, h2⟩
      · revert h2
        split
        · intro h2
          exact authenticate_no_rest _ _ _ m u h2
        · simp
      · revert h2
        split <;> (try split) <;> simp

/-- C4 counterexample: a REST call with a missing base URL on a fresh
client issues the endpoint-discovery and authentication HTTP requests
before failing, so the failure is not "before any network call". -/
theorem rest_call_missing_base_counterexample :
    (rest_call ⟨"u", "p", ⟨none, none, none, none⟩, false, none, none, none⟩
      [⟨200, .json (.obj [("endpoints", .obj [("RestApi", .obj
        [("generics", .obj [("https", .str "https://g")]),
          ("device", .obj [("https", .str "https://d")])])])])⟩,
        ⟨200, .json (.obj [("idToken", .str "tok")])⟩] 0 none "GET" "/devices").result
      = .error (.runtime "Harvia rest_call base URL is missing") ∧
    (rest_call ⟨"u", "p", ⟨none, none, none, none⟩, false, none, none, none⟩
      [⟨200, .json (.obj [("endpoints", .obj [("RestApi", .obj
        [("generics", .obj [("https", .str "https://g")]),
          ("device", .obj [("https", .str "https://d")])])])])⟩,
        ⟨200, .json (.obj [("idToken", .str "tok")])⟩] 0 none "GET" "/devices").trace
      = [.endpoints, .authToken] := ⟨rfl, rfl⟩

/-- C4 (amended): a REST call with a missing or empty base URL always
fails without ever issuing the REST request itself (initialization may
issue discovery/auth requests first); on an already-initialized client
with a fresh token it fails with the missing-base `RuntimeError` before
issuing any network request at all. -/
theorem rest_call_missing_base (c : Client) (w : List HResp) (now : Int)
    (method path : String) (b : Option String) (hb : optStrTruthy b = false) :
    (∀ m u, Req.rest m u ∉ (rest_call c w now b method path).trace) ∧
    (∃ e, (rest_call c w now b method path).result = .error e) ∧
    (Ready c now →
      rest_call c w now b method path
        = ⟨.error (.runtime "Harvia rest_call base URL is missing"), c, w, []⟩) := by
  refine ⟨?_, ?_, ?_⟩
  · intro m u hmem
    unfold rest_call at hmem
    rcases mem_andThen_trace hmem with h | ⟨a, ha, h⟩
    · exact async_init_no_rest c w now m u h
    · simp [hb] at h
  · unfold rest_call
    cases hres : (async_init c w now).result with
    | error e =>
      exact ⟨e, by simp [Step.andThen, hres]⟩
    | ok a =>
      exact ⟨.runtime "Harvia rest_call base URL is missing", by simp [Step.andThen, hres, hb]⟩
  · intro hr
    obtain ⟨h1, h2, h3, h4, h5⟩ := hr
    simp [rest_call, async_init_noop c w now h1 h2 h3 h4, Step.andThen, hb]

/-- Witness for `rest_call_missing_base`. -/
theorem rest_call_missing_base_witness :
    (Req.rest "GET" "x" ∉ (rest_call ⟨"u", "p", ⟨none, none, none, none⟩, false,
      none, none, none⟩ [] 0 none "GET" "/x").trace) ∧
    (∃ e, (rest_call ⟨"u", "p", ⟨none, none, none, none⟩, false, none, none, none⟩
      [] 0 none "GET" "/x").result = .error e) ∧
    rest_call ⟨"u", "p", ⟨some (.str "tok"), none, none, some 1000000⟩, true,
        some "https://g", some "https://d", none⟩ [] 0 (some "") "GET" "/x"
      = ⟨.error (.runtime "Harvia rest_call base URL is missing"),
          ⟨"u", "p", ⟨some (.str "tok"), none, none, some 1000000⟩, true,
            some "https://g", some "https://d", none⟩, [], []⟩ := by
  refine ⟨?_, ?_, ?_⟩
  · exact (rest_call_missing_base ⟨"u", "p", ⟨none, none, none, none⟩, false,
      none, none, none⟩ [] 0 "GET" "/x" none (by decide)).1 "GET" "x"
  · exact (rest_call_missing_base ⟨"u", "p", ⟨none, none, none, none⟩, false,
      none, none, none⟩ [] 0 "GET" "/x" none (by decide)).2.1
  · exact (rest_call_missing_base ⟨"u", "p", ⟨some (.str "tok"), none, none, some 1000000⟩,
      true, some "https://g", some "https://d", none⟩ [] 0 "GET" "/x" (some "")
      (by decide)).2.2 (by decide)

/-! ### Coordinator lemmas (C1) -/

theorem jFind_eq_none {α : Type} (l : List (String × α)) (k : String)
    (h : ∀ p ∈ l, p.1 ≠ k) : jFind l k = none := by
  induction l with
  | nil => rfl
  | cons p tl ih =>
    obtain ⟨k0, v0⟩ := p
    have hk : k0 ≠ k := h (k0, v0) (by simp)
    simp only [jFind, beq_iff_eq, hk, if_neg, reduceIte]
    exact ih fun q hq => h q (by simp [hq])

theorem jFind_append {α : Type} (l1 l2 : List (String × α)) (k : String)
    (h : ∀ p ∈ l1, p.1 ≠ k) : jFind (l1 ++ l2) k = jFind l2 k := by
  induction l1 with
  | nil => rfl
  | cons p tl ih =>
    obtain ⟨k0, v0⟩ := p
    have hk : k0 ≠ k := h (k0, v0) (by simp)
    simp only [List.cons_append, jFind, beq_iff_eq, hk, if_neg, reduceIte]
    exact ih fun q hq => h q (by simp [hq])

theorem poll_devices_keys (o : FetchOracle) :
    ∀ (devs : List CDevice) (ns nl : List (String × JVal)),
      poll_devices o devs = .ok (ns, nl) → ∀ p ∈ ns, p.1 ∈ devs.map CDevice.id := by
  intro devs
  induction devs with
  | nil =>
    intro ns nl h p hp
    simp only [poll_devices] at h
    cases h
    simp at hp
  | cons d tl ih =>
    intro ns nl h p hp
    simp only [poll_devices] at h
    cases hs : try_with_fallback o.state (tryIdsOf d) <;> rw [hs] at h
    case error => cases h
    case ok s =>
    cases hl : try_with_fallback o.latest (tryIdsOf d) <;> rw [hl] at h
    case error => cases h
    case ok l =>
    cases hrest : poll_devices o tl <;> rw [hrest] at h
    case error => cases h
    case ok pr =>
    obtain ⟨ss, ls⟩ := pr
    simp only [Except.bind, pure, Except.pure] at h
    cases h
    rcases List.mem_append.mp hp with hp1 | hp2
    · cases s with
      | none => simp at hp1
      | some v =>
        simp at hp1
        simp [hp1]
    · simp [ih ss ls hrest p hp2]

theorem poll_devices_abort (o : FetchOracle) :
    ∀ (devs : List CDevice) (d : CDevice), d ∈ devs →
      (try_with_fallback o.state (tryIdsOf d) = .error () ∨
        try_with_fallback o.latest (tryIdsOf d) = .error ()) →
      poll_devices o devs = .error () := by
  intro devs
  induction devs with
  | nil => intro d hd; cases hd
  | cons d0 tl ih =>
    intro d hd herr
    rcases List.mem_cons.mp hd with rfl | hmem
    · cases hs : try_with_fallback o.state (tryIdsOf d)
      case error e =>
        simp [poll_devices, hs, bind, Except.bind]
      case ok s =>
        rcases herr with he | he
        · rw [hs] at he
          cases he
        · simp [poll_devices, hs, he, bind, Except.bind]
    · cases hs : try_with_fallback o.state (tryIdsOf d0)
      case error e =>
        simp [poll_devices, hs, bind, Except.bind]
      case ok s =>
        cases hl : try_with_fallback o.latest (tryIdsOf d0)
        case error e =>
          simp [poll_devices, hs, hl, bind, Except.bind]
        case ok l =>
          simp [poll_devices, hs, hl, ih d hmem herr, bind, Except.bind, Functor.map,
            Except.map]

theorem poll_devices_state_lookup (o : FetchOracle) :
    ∀ (devs : List CDevice) (ns nl : List (String × JVal)),
      poll_devices o devs = .ok (ns, nl) → (devs.map CDevice.id).Nodup →
      ∀ d ∈ devs,
        (try_with_fallback o.state (tryIdsOf d) = .ok none → jFind ns d.id = none) ∧
        (∀ v, try_with_fallback o.state (tryIdsOf d) = .ok (some v) →
          jFind ns d.id = some v) := by
  intro devs
  induction devs with
  | nil => intro ns nl h hnd d hd; cases hd
  | cons d0 tl ih =>
    intro ns nl h hnd d hd
    simp only [poll_devices] at h
    cases hs : try_with_fallback o.state (tryIdsOf d0) <;> rw [hs] at h
    case error => cases h
    case ok s =>
    cases hl : try_with_fallback o.latest (tryIdsOf d0) <;> rw [hl] at h
    case error => cases h
    case ok l =>
    cases hrest : poll_devices o tl <;> rw [hrest] at h
    case error => cases h
    case ok pr =>
    obtain ⟨ss, ls⟩ := pr
    simp only [Except.bind, pure, Except.pure] at h
    cases h
    simp only [List.map_cons, List.nodup_cons] at hnd
    rcases List.mem_cons.mp hd with rfl | hmem
    · constructor
      · intro hnone
        rw [hs] at hnone
        cases hnone
        simp only [List.nil_append]
        exact jFind_eq_none ss d.id fun p hp =>
          fun hpk => hnd.1 (hpk ▸ poll_devices_keys o tl ss ls hrest p hp)
      · intro v hv
        rw [hs] at hv
        cases hv
        simp [jFind]
    · have hne : d0.id ≠ d.id := by
        intro he
        exact hnd.1 (he ▸ List.mem_map_of_mem CDevice.id hmem)
      have hofs : jFind ((match s with | some v => [(d0.id, v)] | none => []) ++ ss) d.id
          = jFind ss d.id := by
        apply jFind_append
        intro p hp
        cases s with
        | none => cases hp
        | some v =>
          simp at hp
          simp [hp, hne]
      rw [hofs]
      exact ih ss ls hrest hnd.2 d hmem

/-- With distinct device ids, every device is found in the published
device map. -/
theorem jFind_dev_map (devs : List CDevice) (hnd : (devs.map CDevice.id).Nodup) :
    ∀ d ∈ devs, jFind (devs.map fun d => (d.id, d)) d.id = some d := by
  induction devs with
  | nil =>
    intro d hd
    cases hd
  | cons d0 tl ih =>
    intro d hd
    simp only [List.map_cons, List.nodup_cons] at hnd
    rcases List.mem_cons.mp hd with rfl | hmem
    · simp [jFind]
    · have hne : d0.id ≠ d.id := fun he => hnd.1 (he ▸ List.mem_map_of_mem CDevice.id hmem)
      simp only [List.map_cons, jFind, beq_iff_eq, hne, reduceIte]
      exact ih hnd.2 d hmem

/-- C1 counterexample: device B's state fetch fails with an API error on
both its id and its serial-number fallback; the cycle still succeeds and
B stays in the device map, but B's state entry is dropped from the new
snapshot rather than left unchanged (the previous snapshot had one). -/
theorem coordinator_drops_failed_state_counterexample :
    async_update_data
      { getDevices := .ok [⟨"A", []⟩, ⟨"B", [("serialNumber", .str "SN")]⟩],
        state := fun did => if did = "A" then .ok (.str "sA2") else .error .api,
        latest := fun _ => .ok (.bool true) }
      ⟨[("A", ⟨"A", []⟩), ("B", ⟨"B", [("serialNumber", .str "SN")]⟩)],
        [("A", .str "sA1"), ("B", .str "sB1")], []⟩
      = .ok ⟨[("A", ⟨"A", []⟩), ("B", ⟨"B", [("serialNumber", .str "SN")]⟩)],
          [("A", .str "sA2")],
          [("A", .bool true), ("B", .bool true)]⟩ ∧
    jFind [("A", JVal.str "sA2")] "B" = none ∧
    jFind [("A", JVal.str "sA1"), ("B", JVal.str "sB1")] "B" = some (.str "sB1") := by
  exact ⟨rfl, rfl, rfl⟩

/-- C1 (amended): an auth error while fetching the device list or any
device's state/telemetry (after the serial-number fallback) aborts the
whole cycle as the fatal re-authentication signal; any other device-list
error aborts as a plain update failure; per-device non-auth errors never
abort the cycle — the device stays in the published device map, its state
entry is omitted from the freshly built snapshot (not carried forward),
and every other device's entry updates normally. -/
theorem coordinator_partial_failure (o : FetchOracle) (prev : CoordState) :
    (o.getDevices = .error .auth → async_update_data o prev = .error .authFailed) ∧
    (∀ e, o.getDevices = .error e → e ≠ .auth →
      async_update_data o prev = .error .updateFailed) ∧
    (∀ devs d, o.getDevices = .ok devs → d ∈ devs →
      (try_with_fallback o.state (tryIdsOf d) = .error () ∨
        try_with_fallback o.latest (tryIdsOf d) = .error ()) →
      async_update_data o prev = .error .authFailed) ∧
    (∀ devs ns nl, o.getDevices = .ok devs → poll_devices o devs = .ok (ns, nl) →
      async_update_data o prev = .ok ⟨devs.map (fun d => (d.id, d)), ns, nl⟩ ∧
      ((devs.map CDevice.id).Nodup → ∀ d ∈ devs,
        (try_with_fallback o.state (tryIdsOf d) = .ok none → jFind ns d.id = none) ∧
        (∀ v, try_with_fallback o.state (tryIdsOf d) = .ok (some v) →
          jFind ns d.id = some v)) ∧
      ((devs.map CDevice.id).Nodup → ∀ d ∈ devs,
        jFind (devs.map fun d => (d.id, d)) d.id = some d)) := by
  refine ⟨?_, ?_, ?_, ?_⟩
  · intro h
    simp [async_update_data, h]
  · intro e h hne
    cases e with
    | auth => exact absurd rfl hne
    | api => simp [async_update_data, h]
    | other => simp [async_update_data, h]
  · intro devs d hdevs hd herr
    simp [async_update_data, hdevs, poll_devices_abort o devs d hd herr]
  · intro devs ns nl hdevs hpoll
    exact ⟨by simp [async_update_data, hdevs, hpoll],
      fun hnd d hd => poll_devices_state_lookup o devs ns nl hpoll hnd d hd,
      fun hnd d hd => jFind_dev_map devs hnd d hd⟩

/-- Witness for `coordinator_partial_failure` at concrete oracles. -/
theorem coordinator_partial_failure_witness :
    async_update_data
      { getDevices := .error .auth, state := fun _ => .ok .null,
        latest := fun _ => .ok .null } ⟨[], [], []⟩ = .error .authFailed ∧
    async_update_data
      { getDevices := .error .api, state := fun _ => .ok .null,
        latest := fun _ => .ok .null } ⟨[], [], []⟩ = .error .updateFailed ∧
    async_update_data
      { getDevices := .ok [⟨"B", [("serialNumber", .str "SN")]⟩],
        state := fun _ => .error .auth, latest := fun _ => .ok .null }
      ⟨[], [], []⟩ = .error .authFailed ∧
    async_update_data
      { getDevices := .ok [⟨"A", []⟩, ⟨"B", [("serialNumber", .str "SN")]⟩],
        state := fun did => if did = "A" then .ok (.str "sA2") else .error .api,
        latest := fun _ => .ok (.bool true) }
      ⟨[("A", ⟨"A", []⟩), ("B", ⟨"B", [("serialNumber", .str "SN")]⟩)],
        [("A", .str "sA1"), ("B", .str "sB1")], []⟩
      = .ok ⟨[("A", ⟨"A", []⟩), ("B", ⟨"B", [("serialNumber", .str "SN")]⟩)],
          [("A", .str "sA2")], [("A", .bool true), ("B", .bool true)]⟩ ∧
    jFind [("A", JVal.str "sA2")] "B" = none := by
  refine ⟨?_, ?_, ?_, ?_, ?_⟩
  · exact (coordinator_partial_failure _ ⟨[], [], []⟩).1 rfl
  · exact (coordinator_partial_failure _ ⟨[], [], []⟩).2.1 .api rfl (by decide)
  · exact (coordinator_partial_failure _ ⟨[], [], []⟩).2.2.1
      [⟨"B", [("serialNumber", .str "SN")]⟩] ⟨"B", [("serialNumber", .str "SN")]⟩
      rfl (by simp) (Or.inl rfl)
  · exact ((coordinator_partial_failure
      { getDevices := .ok [⟨"A", []⟩, ⟨"B", [("serialNumber", .str "SN")]⟩],
        state := fun did => if did = "A" then .ok (.str "sA2") else .error .api,
        latest := fun _ => .ok (.bool true) }
      ⟨[("A", ⟨"A", []⟩), ("B", ⟨"B", [("serialNumber", .str "SN")]⟩)],
        [("A", .str "sA1"), ("B", .str "sB1")], []⟩).2.2.2
      [⟨"A", []⟩, ⟨"B", [("serialNumber", .str "SN")]⟩]
      [("A", .str "sA2")] [("A", .bool true), ("B", .bool true)] rfl rfl).1
  · exact (((coordinator_partial_failure
      { getDevices := .ok [⟨"A", []⟩, ⟨"B", [("serialNumber", .str "SN")]⟩],
        state := fun did => if did = "A" then .ok (.str "sA2") else .error .api,
        latest := fun _ => .ok (.bool true) } ⟨[], [], []⟩).2.2.2
      [⟨"A", []⟩, ⟨"B", [("serialNumber", .str "SN")]⟩]
      [("A", .str "sA2")] [("A", .bool true), ("B", .bool true)] rfl rfl).2.1
      (by decide) ⟨"B", [("serialNumber", .str "SN")]⟩ (by simp)).1 rfl

end HarviaFenix
